import Mathlib

/-!
# Chat widget (`chat_widget/js/script.js`): message dispatch, renderers and UI state

A shallow embedding of the two widget scripts

* `besser/agent/platforms/websocket/chat_widget/js/script.js` (the richer variant), and
* `besser/bot/platforms/websocket/chat_widget/js/script.js` (the reduced variant).

JavaScript values are modelled by `JSVal`; the page (transcript, input field, socket state and
transmitted frames, console, charts, timers, window visibility) is an explicit state `Page`; functions that can throw
return a `Result`, which keeps the page reached when the exception was raised.

Library functions that the scripts call but do not define (`JSON.parse`, `JSON.stringify`,
`marked.parse`, number formatting) are fields of `Env`.  Numbers are exact rationals: the rounding
of IEEE doubles is not modelled.  Strings are sequences of Unicode scalar values.
-/

namespace ChatWidget

/-! ## JavaScript values -/

/-- A JavaScript value as it can arise from `JSON.parse` and property reads.  `obj isArray props`
is an object with its own enumerable properties in enumeration order; an array is an object whose
properties are its indices `"0"`, `"1"`, ... (`isArray = true`). -/
inductive JSVal where
  | undefined
  | null
  | bool (b : Bool)
  | num (q : ℚ)
  | str (s : String)
  | obj (isArray : Bool) (props : List (String × JSVal))

/-- The exceptions the scripts can meet. -/
inductive JSError where
  | typeError
  | syntaxError
  | error
  /-- The `InvalidStateError` that `WebSocket.send` throws while the socket is connecting. -/
  | invalidStateError
  deriving DecidableEq, Repr

/-- The environment: library functions and host values the scripts use but do not define. -/
structure Env where
  /-- The function `JSON.parse` on a string; `none` stands for a thrown `SyntaxError`. -/
  jsonParse : String → Option JSVal
  /-- The function `JSON.stringify`. -/
  jsonStringify : JSVal → String
  /-- The function `Number.prototype.toString`. -/
  numToString : ℚ → String
  /-- The function `marked.parse` on a string. -/
  markedParse : String → String
  /-- The value of `config.themeColor`. -/
  themeColor : JSVal

/-- JavaScript truthiness (`ToBoolean`). -/
def truthy : JSVal → Bool
  | .undefined => false
  | .null => false
  | .bool b => b
  | .num q => decide (q ≠ 0)
  | .str s => decide (s ≠ "")
  | .obj _ _ => true

/-- Whether `v` is the string `s` (the test `v === s` for a string literal `s`). -/
def strictEqStr (v : JSVal) (s : String) : Bool :=
  match v with
  | .str t => decide (t = s)
  | _ => false

/-- Whether a property key is an array index written canonically (`"0"`, `"7"`, `"12"`). -/
def isIndexKey (k : String) : Bool :=
  let cs := k.toList
  cs.all Char.isDigit && (cs != []) && (cs.length == 1 || cs.head? != some '0')

/-- The elements of an array object: the values of its index properties. -/
def arrayElems (props : List (String × JSVal)) : List JSVal :=
  (props.filter (fun p => isIndexKey p.1)).map Prod.snd

mutual
/-- The operation `ToString` of the language on a value. -/
def toStr (env : Env) : JSVal → String
  | .undefined => "undefined"
  | .null => "null"
  | .bool b => if b then "true" else "false"
  | .num q => env.numToString q
  | .str s => s
  | .obj false _ => "[object Object]"
  | .obj true props => ",".intercalate (joinElems env props)
/-- The pieces `Array.prototype.join` concatenates: `null` and `undefined` give the empty
string. -/
def joinElems (env : Env) : List (String × JSVal) → List String
  | [] => []
  | (k, v) :: rest =>
    if isIndexKey k then
      (match v with
        | .undefined => ""
        | .null => ""
        | w => toStr env w) :: joinElems env rest
    else joinElems env rest
end

/-- The conversion applied by the `textContent` setter: `null` and `undefined` clear the text. -/
def domText (env : Env) : JSVal → String
  | .undefined => ""
  | .null => ""
  | v => toStr env v

/-- The conversion applied by the `innerHTML` setter: `null` gives the empty string. -/
def domMarkup (env : Env) : JSVal → String
  | .null => ""
  | v => toStr env v

/-- Reading the property `k` of `v` (`v[k]`): a `TypeError` on `null` and `undefined`, own
properties otherwise (none of the keys the scripts read is on a prototype of a parsed value,
except `length`). -/
def getProp (v : JSVal) (k : String) : Except JSError JSVal :=
  match v with
  | .undefined => .error .typeError
  | .null => .error .typeError
  | .bool _ => .ok .undefined
  | .num _ => .ok .undefined
  | .str s =>
    if k = "length" then .ok (.num s.length)
    else
      match (List.range s.length).find? (fun i => toString i = k) with
      | some i => .ok (.str (String.mk (s.toList.drop i |>.take 1)))
      | none => .ok .undefined
  | .obj isArray props =>
    match props.lookup k with
    | some w => .ok w
    | none =>
      if isArray && k = "length" then .ok (.num (arrayElems props).length)
      else .ok .undefined

/-- Replacing or appending a property in a property list. -/
def putProp (k : String) (w : JSVal) : List (String × JSVal) → List (String × JSVal)
  | [] => [(k, w)]
  | (k', v) :: rest => if k' = k then (k, w) :: rest else (k', v) :: putProp k w rest

/-- The assignment `v[k] = w` in sloppy mode, returning the updated `v`: a `TypeError` on `null`
and `undefined`, silently nothing on a primitive. -/
def setProp (v : JSVal) (k : String) (w : JSVal) : Except JSError JSVal :=
  match v with
  | .undefined => .error .typeError
  | .null => .error .typeError
  | .obj isArray props => .ok (.obj isArray (putProp k w props))
  | p => .ok p

/-- The function `Object.keys`. -/
def objectKeys (v : JSVal) : Except JSError (List String) :=
  match v with
  | .undefined => .error .typeError
  | .null => .error .typeError
  | .bool _ => .ok []
  | .num _ => .ok []
  | .str s => .ok ((List.range s.length).map toString)
  | .obj _ props => .ok (props.map Prod.fst)

/-- The function `Object.entries`. -/
def objectEntries (v : JSVal) : Except JSError (List (String × JSVal)) :=
  match v with
  | .undefined => .error .typeError
  | .null => .error .typeError
  | .bool _ => .ok []
  | .num _ => .ok []
  | .str s => .ok (s.toList.enum.map (fun p => (toString p.1, JSVal.str (String.singleton p.2))))
  | .obj _ props => .ok props

/-- The call `JSON.parse(message)`: the argument is converted to a string first. -/
def parseJSON (env : Env) (message : JSVal) : Except JSError JSVal :=
  match env.jsonParse (toStr env message) with
  | some v => .ok v
  | none => .error .syntaxError

/-- The nested assignment `o[k1][k2] = w`, returning the updated `o`. -/
def assignIn (o : JSVal) (k1 k2 : String) (w : JSVal) : Except JSError JSVal := do
  let inner ← getProp o k1
  let inner' ← setProp inner k2 w
  setProp o k1 inner'

/-! ## The page -/

/-- Click listeners registered by the renderers on the nodes they return. -/
inductive Listener where
  /-- The listener of an option button (`getMessageOptions`). -/
  | optionClick
  /-- The listener of the `[Details]` link (`getMessageRAG`). -/
  | detailsToggle
  /-- The listener of the `View Full Screen` button of chart number `chart`. -/
  | viewFullScreen (chart : Nat)
  deriving DecidableEq, Repr

/-- A DOM element. `textContent` is the text set through the `textContent` setter, `innerHTML`
the markup set through the `innerHTML` setter (not parsed), `children` the appended elements. -/
structure Node where
  tag : String
  classList : List String := []
  textContent : String := ""
  innerHTML : Option String := none
  attrs : List (String × String) := []
  style : List (String × String) := []
  listener : Option Listener := none
  children : List Node

/-- The call `document.createElement(tag)`. -/
def createElement (tag : String) : Node :=
  { tag := tag, children := [] }

/-- The call `classList.add(c)`. -/
def Node.addClass (n : Node) (c : String) : Node :=
  { n with classList := if c ∈ n.classList then n.classList else n.classList ++ [c] }

/-- What `Plotly.newPlot(container, data, layout)` mounts in a container. -/
structure Plot where
  data : JSVal
  layout : JSVal

/-- The state shared by the closures of one `getMessagePlotly` call: the parsed chart, the plots
mounted in `chartContainer` and in `fullscreenChartContainer`, and `fullscreenModal.style.display`
(the modal itself is appended to `document.body`). -/
structure Chart where
  chartJSON : JSVal
  inlinePlot : Option Plot
  fullscreenPlot : Option Plot
  modalDisplay : String

/-- The callbacks passed to `setTimeout`. -/
inductive Callback where
  /-- The callback of `toggleChatWindow`: `chatWindow.style.visibility = 'hidden'`. -/
  | hideChatWindow
  /-- The callback of `getMessageLocation`, with the message it captured. -/
  | initMap (message : JSVal)

/-- A pending timer. -/
structure Timer where
  delay : Nat
  callback : Callback

/-- The console methods the scripts call. -/
inductive LogLevel where
  | log
  | warn
  | error
  deriving DecidableEq, Repr

/-- One console line. -/
structure LogEntry where
  level : LogLevel
  text : String
  deriving DecidableEq, Repr

/-- The ready state of the socket `ws` (`ws.readyState`). -/
inductive ReadyState where
  | CONNECTING
  | OPEN
  | CLOSING
  | CLOSED
  deriving DecidableEq, Repr

/-- The state of the page the widget lives in. -/
structure Page where
  /-- The children of `#chat-messages`: the transcript. -/
  chatMessages : List Node := []
  /-- The value of `#message-input`. -/
  messageInput : String := ""
  /-- The ready state of `ws`; `new WebSocket(wsAddress)` leaves it connecting. -/
  wsReadyState : ReadyState := .CONNECTING
  /-- The frames `ws.send` has transmitted, oldest first. -/
  wsSent : List String := []
  /-- The console output, oldest first. -/
  console : List LogEntry := []
  /-- One entry per rendered chart, in rendering order. -/
  charts : List Chart := []
  /-- The pending timers, oldest first. -/
  timers : List Timer := []
  /-- The maps initialised by fired `initMap` callbacks. -/
  maps : List JSVal := []
  /-- Whether the class list of `#chat-window` contains `visible`. -/
  windowClassVisible : Bool := false
  /-- The inline style `#chat-window.style.visibility`. -/
  windowStyleVisibility : String := ""

/-- The outcome of running a function on a page: the page it leaves and either the returned value
or the exception thrown. -/
structure Result (α : Type) where
  page : Page
  value : Except JSError α

/-- The call `ws.send(frame)`: it throws an `InvalidStateError` while the socket is connecting,
transmits the frame when the socket is open, and transmits nothing, without throwing, when the
socket is closing or closed. -/
def wsSend (frame : String) (page : Page) : Result Unit :=
  match page.wsReadyState with
  | .CONNECTING => ⟨page, .error .invalidStateError⟩
  | .OPEN => ⟨{ page with wsSent := page.wsSent ++ [frame] }, .ok ()⟩
  | .CLOSING => ⟨page, .ok ()⟩
  | .CLOSED => ⟨page, .ok ()⟩

/-- The value an `<input type="text">` holds after `s` is assigned to its `value`: the line
breaks (line feed and carriage return) are stripped. -/
def inputValue (s : String) : String :=
  String.mk (s.toList.filter (fun c => c != '\n' && c != '\r'))

/-- A console call. -/
def Page.logLine (page : Page) (level : LogLevel) (text : String) : Page :=
  { page with console := page.console ++ [⟨level, text⟩] }

/-! ## Renderers of the richer variant -/

namespace Agent

/-- The function `getMessageHtml`. -/
def getMessageHtml (env : Env) (message : JSVal) : Node :=
  { createElement "div" with
    innerHTML := some (domMarkup env message)
    classList := ["html-message"] }

/-- The function `getMessageMarkdown`; `marked.parse` throws on a value that is not a string. -/
def getMessageMarkdown (env : Env) (message : JSVal) : Except JSError Node :=
  match message with
  | .str s =>
    .ok { createElement "div" with
          innerHTML := some (env.markedParse s)
          classList := ["markdown-message"] }
  | _ => .error .error

/-- The function `getMessageStr`. -/
def getMessageStr (env : Env) (message : JSVal) : Node :=
  { createElement "p" with
    textContent := domText env message
    classList := ["str-message"] }

/-- The function `getMessageImage`. -/
def getMessageImage (env : Env) (message : JSVal) : Node :=
  { createElement "img" with
    attrs := [("src", "data:image/jpeg;base64," ++ toStr env message)]
    classList := ["image-message"] }

/-- The cells of data row `i` of `getMessageDataframe`: one `td` per column, holding
`data[column][i.toString()]`. -/
def dataframeCells (env : Env) (data : JSVal) (i : Nat) : List String → Except JSError (List Node)
  | [] => .ok []
  | column :: rest => do
    let col ← getProp data column
    let v ← getProp col (toString i)
    let cells ← dataframeCells env data i rest
    pure ({ createElement "td" with textContent := domText env v } :: cells)

/-- The data rows of `getMessageDataframe` for the given row indices. -/
def dataframeRows (env : Env) (data : JSVal) (columns : List String) :
    List Nat → Except JSError (List Node)
  | [] => .ok []
  | i :: rest => do
    let cells ← dataframeCells env data i columns
    let rows ← dataframeRows env data columns rest
    pure ({ createElement "tr" with children := cells } :: rows)

/-- The header cell `getMessageDataframe` creates for a column key. -/
def headerCell (column : String) : Node :=
  { createElement "th" with textContent := column }

/-- The function `getMessageDataframe`. -/
def getMessageDataframe (env : Env) (message : JSVal) : Except JSError Node := do
  let data ← parseJSON env message
  let columns ← objectKeys data
  let headerRow : Node := { createElement "tr" with children := columns.map headerCell }
  let firstKey : String :=
    match columns with
    | [] => "undefined"
    | column :: _ => column
  let firstColumn ← getProp data firstKey
  let firstKeys ← objectKeys firstColumn
  let numRows := firstKeys.length
  let rows ← dataframeRows env data columns (List.range numRows)
  pure { createElement "table" with
         classList := ["dataframe-message"]
         children := headerRow :: rows }

/-- The function `getMessageFile`. -/
def getMessageFile (env : Env) (message : JSVal) : Except JSError Node := do
  let name ← getProp message "name"
  let type ← getProp message "type"
  let base64 ← getProp message "base64"
  pure
    { createElement "a" with
      attrs := [("href", "data:" ++ toStr env type ++ ";base64," ++ toStr env base64),
                ("download", toStr env name)]
      textContent := "Download " ++ toStr env name
      classList := ["button"]
      style := [("backgroundColor", domMarkup env env.themeColor)] }

/-- The button `getMessageOptions` creates for one entry. -/
def optionButton (env : Env) (entry : String × JSVal) : Node :=
  { createElement "a" with
    textContent := domText env entry.2
    style := [("backgroundColor", domMarkup env env.themeColor)]
    classList := ["button"]
    listener := some .optionClick }

/-- The function `getMessageOptions`. -/
def getMessageOptions (env : Env) (message : JSVal) : Except JSError Node := do
  let data ← parseJSON env message
  let entries ← objectEntries data
  pure { createElement "div" with
         classList := ["options-message"]
         children := entries.map (optionButton env) }

/-- The nodes `getMessageRAG` appends to the details section for the documents from position `i`
on, `total` being `docs.length`. -/
def ragDocNodes (env : Env) (total : Nat) : Nat → List JSVal → Except JSError (List Node)
  | _, [] => .ok []
  | i, doc :: rest => do
    let docLabel : Node :=
      { createElement "strong" with
        textContent := "Document " ++ toString (i + 1) ++ "/" ++ toString total }
    let metadata ← getProp doc "metadata"
    let source ← getProp metadata "source"
    let sourceItem : Node :=
      { createElement "li" with textContent := "Source: " ++ toStr env source }
    let page ← getProp metadata "page"
    let pageItem : Node := { createElement "li" with textContent := "Page: " ++ toStr env page }
    let content ← getProp doc "content"
    let contentItem : Node :=
      { createElement "li" with
        textContent := domText env content
        classList := ["str-message"] }
    let docList : Node :=
      { createElement "ul" with children := [sourceItem, pageItem, contentItem] }
    let more ← ragDocNodes env total (i + 1) rest
    pure (docLabel :: docList :: more)

/-- The function `getMessageRAG`; `docs.forEach` exists on arrays only. -/
def getMessageRAG (env : Env) (message : JSVal) : Except JSError Node := do
  let answer ← getProp message "answer"
  let docs ← getProp message "docs"
  let llm_name ← getProp message "llm_name"
  let detailsLink : Node :=
    { createElement "span" with
      textContent := " [Details]"
      style := [("color", "blue"), ("cursor", "pointer")]
      listener := some .detailsToggle }
  let introText : Node :=
    { createElement "p" with
      innerHTML := some ("This answer has been generated by an LLM: " ++ toStr env llm_name
        ++ "<br>\n                           "
        ++ "It received the following documents as input to come up with a relevant answer:") }
  let docNodes ←
    match docs with
    | .obj true props => ragDocNodes env (arrayElems props).length 0 (arrayElems props)
    | _ => .error .typeError
  let detailsSection : Node :=
    { createElement "div" with
      style := [("display", "none")]
      children := introText :: docNodes }
  pure
    { createElement "p" with
      textContent := "🔮 " ++ toStr env answer
      classList := ["str-message"]
      children := [detailsLink, detailsSection] }

/-- The function `getMessageLocation`: the map is initialised by a timer of delay 0. -/
def getMessageLocation (message : JSVal) (page : Page) : Result Node :=
  { page := { page with timers := page.timers ++ [⟨0, .initMap message⟩] }
    value := .ok { createElement "div" with classList := ["location-message"] } }

/-- The compact chart width of `getMessagePlotly`. -/
def chartWidth : ℚ := 350

/-- The compact chart height of `getMessagePlotly`. -/
def chartHeight : ℚ := 275

/-- The first part of `getMessagePlotly`: parsing the chart and forcing its layout. -/
def prepareChart (env : Env) (message : JSVal) : Except JSError JSVal := do
  let chartJSON ← parseJSON env message
  let layout ← getProp chartJSON "layout"
  let chartJSON ← setProp chartJSON "layout" (if truthy layout then layout else .obj false [])
  let chartJSON ← assignIn chartJSON "layout" "autosize" (.bool true)
  let chartJSON ← assignIn chartJSON "layout" "width" (.num chartWidth)
  let chartJSON ← assignIn chartJSON "layout" "height" (.num chartHeight)
  assignIn chartJSON "layout" "responsive" (.bool true)

/-- The arguments `chartJSON.data, chartJSON.layout` of a `Plotly.newPlot` call. -/
def plotOf (chartJSON : JSVal) : Except JSError Plot := do
  let data ← getProp chartJSON "data"
  let layout ← getProp chartJSON "layout"
  pure ⟨data, layout⟩

/-- The function `getMessagePlotly`: the chart becomes the next entry of `page.charts`. -/
def getMessagePlotly (env : Env) (message : JSVal) (page : Page) : Result Node :=
  match prepareChart env message >>= fun chartJSON => (plotOf chartJSON).map (chartJSON, ·) with
  | .error e => ⟨page, .error e⟩
  | .ok (chartJSON, plot) =>
    let fullScreenButton : Node :=
      { createElement "a" with
        classList := ["button"]
        textContent := "View Full Screen"
        style := [("backgroundColor", domMarkup env env.themeColor)]
        listener := some (.viewFullScreen page.charts.length) }
    let chart : Chart :=
      { chartJSON := chartJSON, inlinePlot := some plot, fullscreenPlot := none,
        modalDisplay := "" }
    { page := { page with charts := page.charts ++ [chart] }
      value := .ok { createElement "div" with
                     classList := ["plotly-message"]
                     children := [fullScreenButton] } }

/-- The click listener of the `View Full Screen` button, on the chart it closes over, for a
viewport of the given inner width and height. -/
def fullScreenButtonClick (innerWidth innerHeight : ℚ) (c : Chart) : Except JSError Chart := do
  let chartJSON ← assignIn c.chartJSON "layout" "width" (.num (innerWidth * (9 / 10)))
  let chartJSON ← assignIn chartJSON "layout" "height" (.num (innerHeight * (9 / 10)))
  let plot ← plotOf chartJSON
  pure { c with chartJSON := chartJSON, fullscreenPlot := some plot, modalDisplay := "flex" }

/-- The click listener of the fullscreen modal; `targetIsModal` is `e.target === fullscreenModal`,
false for a click inside the chart. -/
def fullscreenModalClick (targetIsModal : Bool) (c : Chart) : Except JSError Chart :=
  if targetIsModal then do
    let chartJSON ← assignIn c.chartJSON "layout" "width" (.num chartWidth)
    let chartJSON ← assignIn chartJSON "layout" "height" (.num chartHeight)
    pure { c with chartJSON := chartJSON, fullscreenPlot := none, modalDisplay := "none" }
  else pure c

/-- Lifting a renderer without page effects into the dispatcher. -/
def rendered (page : Page) (r : Except JSError Node) : Result (Option Node) :=
  ⟨page, r.map some⟩

/-- The `if`/`else if` chain of `displayMessage`: the value left in `messageElement` (`none` when
it stays unassigned). -/
def selectRenderer (env : Env) (action message : JSVal) (page : Page) : Result (Option Node) :=
  if (strictEqStr action "agent_reply_str" || strictEqStr action "user_message")
      && truthy message then
    rendered page (.ok (getMessageStr env message))
  else if strictEqStr action "agent_reply_options" && truthy message then
    rendered page (getMessageOptions env message)
  else if strictEqStr action "agent_reply_markdown" && truthy message then
    rendered page (getMessageMarkdown env message)
  else if strictEqStr action "agent_reply_html" && truthy message then
    rendered page (.ok (getMessageHtml env message))
  else if strictEqStr action "agent_reply_image" && truthy message then
    rendered page (.ok (getMessageImage env message))
  else if strictEqStr action "agent_reply_file" && truthy message then
    rendered page (getMessageFile env message)
  else if strictEqStr action "agent_reply_dataframe" && truthy message then
    rendered page (getMessageDataframe env message)
  else if strictEqStr action "agent_reply_rag" && truthy message then
    rendered page (getMessageRAG env message)
  else if strictEqStr action "agent_reply_location" && truthy message then
    let r := getMessageLocation message page
    ⟨r.page, r.value.map some⟩
  else if strictEqStr action "agent_reply_plotly" && truthy message then
    let r := getMessagePlotly env message page
    ⟨r.page, r.value.map some⟩
  else
    ⟨page.logLine .warn "Received unknown message format:", .ok none⟩

/-- The end of `displayMessage`: `messageElement.classList.add(className)` (a `TypeError` when
`messageElement` is unassigned) and `chatMessages.appendChild(messageElement)`. -/
def appendMessage (className : String) (r : Result (Option Node)) : Result Unit :=
  match r.value with
  | .error e => ⟨r.page, .error e⟩
  | .ok none => ⟨r.page, .error .typeError⟩
  | .ok (some messageElement) =>
    ⟨{ r.page with chatMessages := r.page.chatMessages ++ [messageElement.addClass className] },
      .ok ()⟩

/-- The function `displayMessage` of the richer variant. -/
def displayMessage (env : Env) (payload : JSVal) (className : String) (page : Page) :
    Result Unit :=
  match getProp payload "action" with
  | .error e => ⟨page, .error e⟩
  | .ok action =>
    match getProp payload "message" with
    | .error e => ⟨page, .error e⟩
    | .ok message => appendMessage className (selectRenderer env action message page)

/-- The payload `sendMessage` builds for the text `message`. -/
def userPayload (message : String) : JSVal :=
  .obj false [("action", .str "user_message"), ("message", .str message)]

/-- The function `sendMessage` of the richer variant. -/
def sendMessage (env : Env) (page : Page) : Result Unit :=
  let message := page.messageInput
  if message ≠ "" then
    let payload := userPayload message
    let r := displayMessage env payload "user-message" page
    match r.value with
    | .error e => ⟨r.page, .error e⟩
    | .ok _ =>
      let sent := wsSend (env.jsonStringify payload) r.page
      match sent.value with
      | .error e => ⟨sent.page, .error e⟩
      | .ok _ => ⟨{ sent.page with messageInput := "" }, .ok ()⟩
  else ⟨page, .ok ()⟩

/-- The handler `ws.onmessage` of the richer variant on a frame with the given data: whatever
the `try` block throws is caught and logged. -/
def onmessage (env : Env) (data : String) (page : Page) : Result Unit :=
  match env.jsonParse data with
  | none => ⟨page.logLine .error "Error parsing message:", .ok ()⟩
  | some payload =>
    let r := displayMessage env payload "agent-message" page
    match r.value with
    | .ok _ => ⟨r.page, .ok ()⟩
    | .error _ => ⟨r.page.logLine .error "Error parsing message:", .ok ()⟩

/-- The click listener of an option button: `messageInput.value = button.textContent`, then
`sendMessage()`. -/
def optionClick (env : Env) (button : Node) (page : Page) : Result Unit :=
  sendMessage env { page with messageInput := inputValue button.textContent }

/-- The function `toggleChatWindow` of the richer variant. -/
def toggleChatWindow (page : Page) : Page :=
  if page.windowClassVisible then
    { page with
      windowClassVisible := false
      timers := page.timers ++ [⟨300, .hideChatWindow⟩] }
  else
    { page with
      windowStyleVisibility := "visible"
      windowClassVisible := true }

end Agent

/-- Running a timer callback. -/
def runCallback (page : Page) : Callback → Page
  | .hideChatWindow => { page with windowStyleVisibility := "hidden" }
  | .initMap message => { page with maps := page.maps ++ [message] }

/-- The pending timer at position `i` fires: it leaves the queue and its callback runs (which
timer is due is decided by the clock, which is not modelled). -/
def fireTimer (i : Nat) (page : Page) : Page :=
  match page.timers.get? i with
  | none => page
  | some t => runCallback { page with timers := page.timers.eraseIdx i } t.callback

/-! ## The reduced variant -/

namespace Bot

/-- The function `getMessageHtml`. -/
def getMessageHtml (env : Env) (text : JSVal) : Node :=
  { createElement "div" with
    innerHTML := some (domMarkup env text)
    classList := ["html-message"] }

/-- The function `getMessageMarkdown`; `marked.parse` throws on a value that is not a string. -/
def getMessageMarkdown (env : Env) (text : JSVal) : Except JSError Node :=
  match text with
  | .str s =>
    .ok { createElement "div" with
          innerHTML := some (env.markedParse s)
          classList := ["markdown-message"] }
  | _ => .error .error

/-- The function `getMessageStr`. -/
def getMessageStr (env : Env) (text : JSVal) : Node :=
  { createElement "p" with
    textContent := domText env text
    classList := ["str-message"] }

/-- The `if`/`else if` chain of `displayMessage`: the value left in `messageElement` (`none` when
it stays unassigned). -/
def selectRenderer (env : Env) (action message : JSVal) (page : Page) : Result (Option Node) :=
  if (strictEqStr action "bot_reply_str" || strictEqStr action "user_message")
      && truthy message then
    Agent.rendered page (.ok (getMessageStr env message))
  else if strictEqStr action "bot_reply_markdown" && truthy message then
    Agent.rendered page (getMessageMarkdown env message)
  else if strictEqStr action "bot_reply_html" && truthy message then
    Agent.rendered page (.ok (getMessageHtml env message))
  else
    ⟨page.logLine .warn "Received unknown message format:", .ok none⟩

/-- The function `displayMessage` of the reduced variant. -/
def displayMessage (env : Env) (payload : JSVal) (className : String) (page : Page) :
    Result Unit :=
  match getProp payload "action" with
  | .error e => ⟨page, .error e⟩
  | .ok action =>
    match getProp payload "message" with
    | .error e => ⟨page, .error e⟩
    | .ok message => Agent.appendMessage className (selectRenderer env action message page)

/-- The function `sendMessage` of the reduced variant. -/
def sendMessage (env : Env) (page : Page) : Result Unit :=
  let message := page.messageInput
  if message ≠ "" then
    let payload := Agent.userPayload message
    let r := displayMessage env payload "user-message" page
    match r.value with
    | .error e => ⟨r.page, .error e⟩
    | .ok _ =>
      let sent := wsSend (env.jsonStringify payload) r.page
      match sent.value with
      | .error e => ⟨sent.page, .error e⟩
      | .ok _ => ⟨{ sent.page with messageInput := "" }, .ok ()⟩
  else ⟨page, .ok ()⟩

/-- The handler `ws.onmessage` of the reduced variant. -/
def onmessage (env : Env) (data : String) (page : Page) : Result Unit :=
  match env.jsonParse data with
  | none => ⟨page.logLine .error "Error parsing message:", .ok ()⟩
  | some payload =>
    let r := displayMessage env payload "bot-message" page
    match r.value with
    | .ok _ => ⟨r.page, .ok ()⟩
    | .error _ => ⟨r.page.logLine .error "Error parsing message:", .ok ()⟩

/-- The function `toggleChatWindow` of the reduced variant. -/
def toggleChatWindow (page : Page) : Page :=
  if page.windowClassVisible then
    { page with
      windowClassVisible := false
      timers := page.timers ++ [⟨300, .hideChatWindow⟩] }
  else
    { page with
      windowStyleVisibility := "visible"
      windowClassVisible := true }

end Bot

/-! ## Action kinds and sample values -/

/-- The action kinds the `if`/`else if` chain of the richer `displayMessage` tests for. -/
def Agent.actionKinds : List String :=
  ["agent_reply_str", "user_message", "agent_reply_options", "agent_reply_markdown",
   "agent_reply_html", "agent_reply_image", "agent_reply_file", "agent_reply_dataframe",
   "agent_reply_rag", "agent_reply_location", "agent_reply_plotly"]

/-- The action kinds the `if`/`else if` chain of the reduced `displayMessage` tests for. -/
def Bot.actionKinds : List String :=
  ["bot_reply_str", "user_message", "bot_reply_markdown", "bot_reply_html"]

/-- A payload `{action, message}` as an inbound frame decodes to. -/
def mkPayload (action : String) (message : JSVal) : JSVal :=
  .obj false [("action", .str action), ("message", message)]

/-- A serialiser standing for `JSON.stringify` in the sample environment: strings are quoted with
`"` and `\` escaped, objects and arrays are written without spaces. -/
def sampleQuote (s : String) : String :=
  "\"" ++ String.join (s.toList.map (fun c =>
    if c = '"' then "\\\"" else if c = '\\' then "\\\\" else String.singleton c)) ++ "\""

mutual
/-- The sample serialiser on a value. -/
def sampleStringify : JSVal → String
  | .undefined => "undefined"
  | .null => "null"
  | .bool b => if b then "true" else "false"
  | .num q => toString q
  | .str s => sampleQuote s
  | .obj false props => "\x7b" ++ ",".intercalate (sampleMembers props) ++ "\x7d"
  | .obj true props => "[" ++ ",".intercalate (sampleItems props) ++ "]"
/-- The members of an object in the sample serialiser. -/
def sampleMembers : List (String × JSVal) → List String
  | [] => []
  | (k, v) :: rest => (sampleQuote k ++ ":" ++ sampleStringify v) :: sampleMembers rest
/-- The items of an array in the sample serialiser. -/
def sampleItems : List (String × JSVal) → List String
  | [] => []
  | (_, v) :: rest => sampleStringify v :: sampleItems rest
end

/-- The dataframe of the specification's example, as `JSON.parse` returns it. -/
def sampleDataframe : JSVal :=
  .obj false
    [("a", .obj false [("0", .str "x"), ("1", .str "y")]),
     ("b", .obj false [("0", .str "1"), ("1", .str "2")])]

/-- A dataframe whose second column lacks the index key of the first. -/
def raggedDataframe : JSVal :=
  .obj false [("a", .obj false [("0", .str "x")]), ("b", .obj false [])]

/-- The options of the specification's example, as `JSON.parse` returns them. -/
def sampleOptions : JSVal :=
  .obj false [("1", .str "Yes"), ("2", .str "No")]

/-- The text `{"a":{"0":"x"},"b":{}}` of the ragged dataframe. -/
def raggedBody : String := "\x7b\"a\":\x7b\"0\":\"x\"\x7d,\"b\":\x7b\x7d\x7d"

/-- The text of an inbound `agent_reply_dataframe` frame whose message is `raggedBody`. -/
def raggedFrame : String :=
  "\x7b\"action\":\"agent_reply_dataframe\",\"message\":"
    ++ "\"\x7b\\\"a\\\":\x7b\\\"0\\\":\\\"x\\\"\x7d,\\\"b\\\":\x7b\x7d\x7d\"\x7d"

/-- The text of an inbound `agent_reply_dataframe` frame whose message is the text `{}`. -/
def emptyFrame : String :=
  "\x7b\"action\":\"agent_reply_dataframe\",\"message\":\"\x7b\x7d\"\x7d"

/-- The texts the sample environment can parse, with the values `JSON.parse` gives for them. -/
def sampleFrames : List (String × JSVal) :=
  [("\x7b\"a\":\x7b\"0\":\"x\",\"1\":\"y\"\x7d,\"b\":\x7b\"0\":\"1\",\"1\":\"2\"\x7d\x7d",
      sampleDataframe),
   (raggedBody, raggedDataframe),
   ("\x7b\"1\":\"Yes\",\"2\":\"No\"\x7d", sampleOptions),
   ("\x7b\x7d", .obj false []),
   ("\x7b\"1\":\"\"\x7d", .obj false [("1", .str "")]),
   (raggedFrame,
      .obj false [("action", .str "agent_reply_dataframe"), ("message", .str raggedBody)]),
   (emptyFrame,
      .obj false [("action", .str "agent_reply_dataframe"), ("message", .str "\x7b\x7d")]),
   ("\x7b\"action\":\"ping\"\x7d", .obj false [("action", .str "ping")]),
   ("\x7b\"data\":[]\x7d", .obj false [("data", .obj true [])])]

/-- A concrete environment for evaluating the model: its `jsonParse` knows the texts of
`sampleFrames` and rejects every other text. -/
def sampleEnv : Env :=
  { jsonParse := fun s => sampleFrames.lookup s
    jsonStringify := sampleStringify
    numToString := fun q => toString q
    markedParse := fun s => "<p>" ++ s ++ "</p>\n"
    themeColor := .str "#2ecc71" }

/-- The value `JSON.parse` returns for a dataframe body: an object mapping each column name to
the object holding that column's index-to-value map. -/
def dataframeValue (cols : List (String × List (String × JSVal))) : JSVal :=
  .obj false (cols.map (fun c => (c.1, .obj false c.2)))

/-- The `td` cell `getMessageDataframe` creates for the value `v`. -/
def Agent.dataCell (env : Env) (v : JSVal) : Node :=
  { createElement "td" with textContent := domText env v }

/-- The `tr` row `getMessageDataframe` creates from its cells. -/
def Agent.dataRow (cells : List Node) : Node :=
  { createElement "tr" with children := cells }

/-- The shape of a parsed chart body `{data, layout}`: the layout is absent, falsy, or a plain
object. -/
def WellFormedChart (props : List (String × JSVal)) : Prop :=
  ∀ v, props.lookup "layout" = some v → truthy v = true → ∃ lp, v = .obj false lp

/-- The property `k` of the layout of a chart (`chartJSON.layout[k]`), if it can be read. -/
def Chart.layoutProp (c : Chart) (k : String) : Option JSVal :=
  match getProp c.chartJSON "layout" with
  | .ok layout => (getProp layout k).toOption
  | .error _ => none

/-- The clicks a rendered chart reacts to. -/
inductive ChartEvent where
  /-- A click on `View Full Screen` in a viewport of the given inner size. -/
  | viewFullScreen (innerWidth innerHeight : ℚ)
  /-- A click inside the fullscreen modal; `targetIsModal` tells whether the modal itself, and
  not the chart inside it, was hit. -/
  | modalClick (targetIsModal : Bool)

/-- One click on a chart. -/
def chartStep (c : Chart) : ChartEvent → Except JSError Chart
  | .viewFullScreen w h => Agent.fullScreenButtonClick w h c
  | .modalClick t => Agent.fullscreenModalClick t c

/-- A sequence of clicks on a chart, oldest first. -/
def runChart (c : Chart) : List ChartEvent → Except JSError Chart
  | [] => .ok c
  | e :: rest => chartStep c e >>= fun c' => runChart c' rest

/-- The state every rendered well-formed chart is in: the chart and its layout are plain
objects. -/
def ChartReady (c : Chart) : Prop :=
  ∃ props lp, c.chartJSON = .obj false props ∧ props.lookup "layout" = some (.obj false lp)

/-- A parsed RAG document: a plain object whose `metadata` is a plain object. -/
def WellFormedDoc (doc : JSVal) : Prop :=
  ∃ dprops mprops, doc = .obj false dprops ∧ dprops.lookup "metadata" = some (.obj false mprops)

/-- The supported action kinds of the richer variant, each with the well-formed bodies of its
shape and with the kind's renderer applied to the body. -/
inductive WellFormedFrame (env : Env) : String → JSVal → (Page → Result Node) → Prop where
  | text (s : String) :
    WellFormedFrame env "agent_reply_str" (.str s)
      (fun page => ⟨page, .ok (Agent.getMessageStr env (.str s))⟩)
  | options (s : String) (entries : List (String × JSVal))
      (hparse : env.jsonParse s = some (.obj false entries)) :
    WellFormedFrame env "agent_reply_options" (.str s)
      (fun page => ⟨page, Agent.getMessageOptions env (.str s)⟩)
  | markdown (s : String) :
    WellFormedFrame env "agent_reply_markdown" (.str s)
      (fun page => ⟨page, Agent.getMessageMarkdown env (.str s)⟩)
  | html (s : String) :
    WellFormedFrame env "agent_reply_html" (.str s)
      (fun page => ⟨page, .ok (Agent.getMessageHtml env (.str s))⟩)
  | image (s : String) :
    WellFormedFrame env "agent_reply_image" (.str s)
      (fun page => ⟨page, .ok (Agent.getMessageImage env (.str s))⟩)
  | file (props : List (String × JSVal)) :
    WellFormedFrame env "agent_reply_file" (.obj false props)
      (fun page => ⟨page, Agent.getMessageFile env (.obj false props)⟩)
  | dataframe (s : String) (cols : List (String × List (String × JSVal))) (n : Nat)
      (hparse : env.jsonParse s = some (dataframeValue cols)) (hne : cols ≠ [])
      (hnodup : (cols.map Prod.fst).Nodup)
      (hkeys : ∀ c ∈ cols, c.2.map Prod.fst = (List.range n).map toString) :
    WellFormedFrame env "agent_reply_dataframe" (.str s)
      (fun page => ⟨page, Agent.getMessageDataframe env (.str s)⟩)
  | rag (props docs : List (String × JSVal))
      (hdocs : props.lookup "docs" = some (.obj true docs))
      (hwf : ∀ d ∈ arrayElems docs, WellFormedDoc d) :
    WellFormedFrame env "agent_reply_rag" (.obj false props)
      (fun page => ⟨page, Agent.getMessageRAG env (.obj false props)⟩)
  | location (props : List (String × JSVal)) :
    WellFormedFrame env "agent_reply_location" (.obj false props)
      (Agent.getMessageLocation (.obj false props))
  | plotly (s : String) (props : List (String × JSVal))
      (hparse : env.jsonParse s = some (.obj false props)) (hwf : WellFormedChart props) :
    WellFormedFrame env "agent_reply_plotly" (.str s)
      (Agent.getMessagePlotly env (.str s))

/-- The events one widget processes, one at a time: an inbound frame with the given data, or the
user submitting the given text (the text is in the input when `sendMessage` runs). -/
inductive Event where
  | inbound (data : String)
  | userSend (text : String)

/-- The page after the richer script has processed one event. -/
def Agent.step (env : Env) (page : Page) : Event → Page
  | .inbound data => (Agent.onmessage env data page).page
  | .userSend text => (Agent.sendMessage env { page with messageInput := text }).page

/-- The page after the reduced script has processed one event. -/
def Bot.step (env : Env) (page : Page) : Event → Page
  | .inbound data => (Bot.onmessage env data page).page
  | .userSend text => (Bot.sendMessage env { page with messageInput := text }).page

/-- The page after the richer script has processed a sequence of events, oldest first. -/
def Agent.run (env : Env) (page : Page) : List Event → Page
  | [] => page
  | e :: rest => Agent.run env (Agent.step env page e) rest

/-- The page after the reduced script has processed a sequence of events, oldest first. -/
def Bot.run (env : Env) (page : Page) : List Event → Page
  | [] => page
  | e :: rest => Bot.run env (Bot.step env page e) rest

/-- The class name the richer script passes to `displayMessage` for an event. -/
def Agent.originTag : Event → String
  | .inbound _ => "agent-message"
  | .userSend _ => "user-message"

/-- The class name the reduced script passes to `displayMessage` for an event. -/
def Bot.originTag : Event → String
  | .inbound _ => "bot-message"
  | .userSend _ => "user-message"

/-- What one event may add to the transcript: no node or one node, carrying the class `tag`. -/
def EntryOf (tag : String) (added : List Node) : Prop :=
  added.length ≤ 1 ∧ ∀ n ∈ added, tag ∈ n.classList

/-! ## Theorems -/

theorem agent_selectRenderer_unknown (env : Env) (action message : JSVal) (page : Page)
    (h : ∀ a, action = .str a → a ∉ Agent.actionKinds) :
    Agent.selectRenderer env action message page
      = ⟨page.logLine .warn "Received unknown message format:", .ok none⟩ := by
  cases action with
  | str a =>
    have ha := h a rfl
    simp only [Agent.actionKinds, List.mem_cons, List.mem_singleton, not_or, List.mem_nil_iff,
      not_false_eq_true, and_true] at ha
    obtain ⟨h1, h2, h3, h4, h5, h6, h7, h8, h9, h10, h11⟩ := ha
    simp [Agent.selectRenderer, strictEqStr, h1, h2, h3, h4, h5, h6, h7, h8, h9, h10, h11]
  | _ => simp [Agent.selectRenderer, strictEqStr]

theorem bot_selectRenderer_unknown (env : Env) (action message : JSVal) (page : Page)
    (h : ∀ a, action = .str a → a ∉ Bot.actionKinds) :
    Bot.selectRenderer env action message page
      = ⟨page.logLine .warn "Received unknown message format:", .ok none⟩ := by
  cases action with
  | str a =>
    have ha := h a rfl
    simp only [Bot.actionKinds, List.mem_cons, List.mem_singleton, not_or, List.mem_nil_iff,
      not_false_eq_true, and_true] at ha
    obtain ⟨h1, h2, h3, h4⟩ := ha
    simp [Bot.selectRenderer, strictEqStr, h1, h2, h3, h4]
  | _ => simp [Bot.selectRenderer, strictEqStr]

/-- On an action kind outside the chain the richer `displayMessage` logs the warning, leaves the
transcript alone and throws the `TypeError` of `messageElement.classList` on `undefined`. -/
theorem agent_displayMessage_unknown (env : Env) (payload : JSVal) (className : String)
    (page : Page) (action : JSVal) (hact : getProp payload "action" = .ok action)
    (h : ∀ a, action = .str a → a ∉ Agent.actionKinds) :
    Agent.displayMessage env payload className page
      = ⟨page.logLine .warn "Received unknown message format:", .error .typeError⟩ := by
  have hmsg : ∃ m, getProp payload "message" = .ok m := by
    cases payload <;> simp [getProp] at hact ⊢
    · split <;> simp
    · split <;> simp
  obtain ⟨m, hm⟩ := hmsg
  simp [Agent.displayMessage, hact, hm, agent_selectRenderer_unknown env action m page h,
    Agent.appendMessage]

/-- The reduced `displayMessage` on an action kind outside its chain. -/
theorem bot_displayMessage_unknown (env : Env) (payload : JSVal) (className : String)
    (page : Page) (action : JSVal) (hact : getProp payload "action" = .ok action)
    (h : ∀ a, action = .str a → a ∉ Bot.actionKinds) :
    Bot.displayMessage env payload className page
      = ⟨page.logLine .warn "Received unknown message format:", .error .typeError⟩ := by
  have hmsg : ∃ m, getProp payload "message" = .ok m := by
    cases payload <;> simp [getProp] at hact ⊢
    · split <;> simp
    · split <;> simp
  obtain ⟨m, hm⟩ := hmsg
  simp [Bot.displayMessage, hact, hm, bot_selectRenderer_unknown env action m page h,
    Agent.appendMessage]

/-- When reading `payload.action` throws, the richer `displayMessage` throws with the page
untouched. -/
theorem agent_displayMessage_no_action (env : Env) (payload : JSVal) (className : String)
    (page : Page) (e : JSError) (hact : getProp payload "action" = .error e) :
    Agent.displayMessage env payload className page = ⟨page, .error e⟩ := by
  simp [Agent.displayMessage, hact]

/-- When reading `payload.action` throws, the reduced `displayMessage` throws with the page
untouched. -/
theorem bot_displayMessage_no_action (env : Env) (payload : JSVal) (className : String)
    (page : Page) (e : JSError) (hact : getProp payload "action" = .error e) :
    Bot.displayMessage env payload className page = ⟨page, .error e⟩ := by
  simp [Bot.displayMessage, hact]

/-- C1. An inbound frame that decodes to a payload whose action is absent or not one of the
variant's action kinds leaves the transcript exactly as it was, and `ws.onmessage` returns
normally; this holds for the richer and for the reduced script. -/
theorem onmessage_unsupported_action (env : Env) (data : String) (payload : JSVal) (page : Page)
    (hdecode : env.jsonParse data = some payload) :
    ((∀ a, getProp payload "action" = .ok (.str a) → a ∉ Agent.actionKinds) →
      (Agent.onmessage env data page).page.chatMessages = page.chatMessages ∧
      (Agent.onmessage env data page).value = .ok ()) ∧
    ((∀ a, getProp payload "action" = .ok (.str a) → a ∉ Bot.actionKinds) →
      (Bot.onmessage env data page).page.chatMessages = page.chatMessages ∧
      (Bot.onmessage env data page).value = .ok ()) := by
  constructor
  · intro h
    cases hact : getProp payload "action" with
    | error e =>
      simp [Agent.onmessage, hdecode, agent_displayMessage_no_action env payload _ page e hact,
        Page.logLine]
    | ok action =>
      have h' : ∀ a, action = .str a → a ∉ Agent.actionKinds := fun a ha => h a (by rw [hact, ha])
      simp [Agent.onmessage, hdecode,
        agent_displayMessage_unknown env payload _ page action hact h', Page.logLine]
  · intro h
    cases hact : getProp payload "action" with
    | error e =>
      simp [Bot.onmessage, hdecode, bot_displayMessage_no_action env payload _ page e hact,
        Page.logLine]
    | ok action =>
      have h' : ∀ a, action = .str a → a ∉ Bot.actionKinds := fun a ha => h a (by rw [hact, ha])
      simp [Bot.onmessage, hdecode,
        bot_displayMessage_unknown env payload _ page action hact h', Page.logLine]

/-- C1, at the frame `{"action":"ping"}` on an empty page of the sample environment. -/
theorem onmessage_unsupported_action_witness :
    ((Agent.onmessage sampleEnv "\x7b\"action\":\"ping\"\x7d" {}).page.chatMessages = [] ∧
      (Agent.onmessage sampleEnv "\x7b\"action\":\"ping\"\x7d" {}).value = .ok ()) ∧
    ((Bot.onmessage sampleEnv "\x7b\"action\":\"ping\"\x7d" {}).page.chatMessages = [] ∧
      (Bot.onmessage sampleEnv "\x7b\"action\":\"ping\"\x7d" {}).value = .ok ()) :=
  have h := onmessage_unsupported_action sampleEnv "\x7b\"action\":\"ping\"\x7d"
    (.obj false [("action", .str "ping")]) {} rfl
  ⟨h.1 (fun a ha => by
      have : a = "ping" := by
        simp [getProp, List.lookup] at ha
        exact ha.symm
      subst this; decide),
   h.2 (fun a ha => by
      have : a = "ping" := by
        simp [getProp, List.lookup] at ha
        exact ha.symm
      subst this; decide)⟩

/-! ### The dataframe renderer -/

theorem lookup_map_of_mem {β : Type} (f : String × β → JSVal) :
    ∀ (cols : List (String × β)), (cols.map Prod.fst).Nodup → ∀ c ∈ cols,
      (cols.map (fun c => (c.1, f c))).lookup c.1 = some (f c)
  | [], _, c, hc => by simp at hc
  | d :: rest, hnd, c, hc => by
    simp only [List.map_cons, List.nodup_cons] at hnd
    rcases List.mem_cons.mp hc with rfl | hmem
    · simp [List.lookup]
    · have hne : c.1 ≠ d.1 := by
        intro h
        exact hnd.1 (h ▸ List.mem_map_of_mem Prod.fst hmem)
      have hbeq : (c.1 == d.1) = false := by simpa using hne
      simp only [List.map_cons, List.lookup, hbeq]
      exact lookup_map_of_mem f rest hnd.2 c hmem

theorem lookup_isSome_of_mem_keys :
    ∀ (m : List (String × JSVal)) (k : String), k ∈ m.map Prod.fst → ∃ v, m.lookup k = some v
  | [], k, h => by simp at h
  | (k', v) :: rest, k, h => by
    by_cases hk : k = k'
    · subst hk
      exact ⟨v, by simp [List.lookup]⟩
    · have hbeq : (k == k') = false := by simpa using hk
      have hmem : k ∈ rest.map Prod.fst := by
        simp only [List.map_cons, List.mem_cons] at h
        rcases h with h | h
        · exact absurd h hk
        · exact h
      obtain ⟨w, hw⟩ := lookup_isSome_of_mem_keys rest k hmem
      exact ⟨w, by simp [List.lookup, hbeq, hw]⟩

theorem getProp_plain (m : List (String × JSVal)) (k : String) :
    getProp (.obj false m) k = .ok ((m.lookup k).getD .undefined) := by
  simp only [getProp]
  split
  · next w h => rw [h]; rfl
  · next h => rw [h]; simp

/-- The cells of one data row on a parsed dataframe. -/
theorem dataframeCells_eq (env : Env) (cols : List (String × List (String × JSVal)))
    (hnodup : (cols.map Prod.fst).Nodup) (i : Nat) :
    ∀ sub : List (String × List (String × JSVal)), (∀ c ∈ sub, c ∈ cols) →
      Agent.dataframeCells env (dataframeValue cols) i (sub.map Prod.fst)
        = .ok (sub.map (fun c =>
            Agent.dataCell env ((c.2.lookup (toString i)).getD .undefined)))
  | [], _ => rfl
  | c :: rest, hsub => by
    have hc : c ∈ cols := hsub c (List.mem_cons_self _ _)
    have hrest := dataframeCells_eq env cols hnodup i rest
      (fun d hd => hsub d (List.mem_cons_of_mem _ hd))
    have hcol : getProp (dataframeValue cols) c.1 = .ok (.obj false c.2) := by
      rw [dataframeValue, getProp_plain,
        lookup_map_of_mem (fun c : String × List (String × JSVal) => JSVal.obj false c.2)
          cols hnodup c hc]
      rfl
    simp only [List.map_cons, Agent.dataframeCells, hcol, hrest, bind, Except.bind,
      getProp_plain, pure, Except.pure]
    rfl

/-- The data rows on a parsed dataframe. -/
theorem dataframeRows_eq (env : Env) (cols : List (String × List (String × JSVal)))
    (hnodup : (cols.map Prod.fst).Nodup) :
    ∀ idxs : List Nat,
      Agent.dataframeRows env (dataframeValue cols) (cols.map Prod.fst) idxs
        = .ok (idxs.map (fun i => Agent.dataRow (cols.map (fun c =>
            Agent.dataCell env ((c.2.lookup (toString i)).getD .undefined)))))
  | [] => rfl
  | i :: rest => by
    simp only [Agent.dataframeRows, dataframeCells_eq env cols hnodup i cols (fun _ h => h),
      dataframeRows_eq env cols hnodup rest, List.map_cons, bind, Except.bind, pure, Except.pure]
    rfl

/-- The table `getMessageDataframe` returns on a parsed dataframe with at least one column. -/
theorem getMessageDataframe_eq (env : Env) (s : String)
    (cols : List (String × List (String × JSVal)))
    (hparse : env.jsonParse s = some (dataframeValue cols)) (hne : cols ≠ [])
    (hnodup : (cols.map Prod.fst).Nodup) :
    Agent.getMessageDataframe env (.str s)
      = .ok { createElement "table" with
              classList := ["dataframe-message"]
              children :=
                { createElement "tr" with children := (cols.map Prod.fst).map Agent.headerCell }
                :: (List.range ((cols.head hne).2.length)).map (fun i =>
                    Agent.dataRow (cols.map (fun c =>
                      Agent.dataCell env ((c.2.lookup (toString i)).getD .undefined)))) } := by
  obtain ⟨c0, rest, rfl⟩ := List.exists_cons_of_ne_nil hne
  have hcol : getProp (dataframeValue (c0 :: rest)) c0.1 = .ok (.obj false c0.2) := by
    rw [dataframeValue, getProp_plain,
      lookup_map_of_mem (fun c : String × List (String × JSVal) => JSVal.obj false c.2)
        (c0 :: rest) hnodup c0 (List.mem_cons_self _ _)]
    rfl
  have hkeys : objectKeys (dataframeValue (c0 :: rest)) = .ok ((c0 :: rest).map Prod.fst) := by
    simp [objectKeys, dataframeValue, Function.comp_def]
  have hparse' : parseJSON env (.str s) = .ok (dataframeValue (c0 :: rest)) := by
    simp [parseJSON, toStr, hparse]
  have hfirst : objectKeys (.obj false c0.2) = .ok (c0.2.map Prod.fst) := rfl
  have hrows := dataframeRows_eq env (c0 :: rest) hnodup (List.range c0.2.length)
  simp only [List.map_cons] at hrows
  simp only [Agent.getMessageDataframe, hparse', bind, Except.bind, hkeys, List.map_cons, hcol,
    hfirst, hrows, pure, Except.pure, List.head_cons, List.length_map]

/-- C5. On a dataframe body that parses to an object mapping each column name to an object with
the index keys `"0"` .. `"n-1"`, `getMessageDataframe` returns a table whose first row holds one
header cell per column key in the enumeration order of the parsed object, followed by exactly `n`
data rows, each with one cell per column, and the cell of data row `i` under column `c` shows the
value stored at key `toString i` of column `c`. -/
theorem getMessageDataframe_grid (env : Env) (s : String)
    (cols : List (String × List (String × JSVal))) (n : Nat)
    (hparse : env.jsonParse s = some (dataframeValue cols)) (hne : cols ≠ [])
    (hnodup : (cols.map Prod.fst).Nodup)
    (hkeys : ∀ c ∈ cols, c.2.map Prod.fst = (List.range n).map toString) :
    ∃ header rows,
      Agent.getMessageDataframe env (.str s)
        = .ok { createElement "table" with
                classList := ["dataframe-message"]
                children := header :: rows } ∧
      header.tag = "tr" ∧
      header.children = (cols.map Prod.fst).map Agent.headerCell ∧
      rows.length = n ∧
      ∀ i : Nat, i < n → ∃ row, rows[i]? = some row ∧ row.tag = "tr" ∧
        row.children.length = cols.length ∧
        ∀ (j : Nat) (c : String × List (String × JSVal)), cols[j]? = some c → ∃ v, c.2.lookup (toString i) = some v ∧
          row.children[j]? = some (Agent.dataCell env v) := by
  have hlen : (cols.head hne).2.length = n := by
    have h := congrArg List.length (hkeys (cols.head hne) (List.head_mem hne))
    simpa using h
  refine ⟨_, _, getMessageDataframe_eq env s cols hparse hne hnodup, ?_, ?_, ?_, ?_⟩
  · rfl
  · rfl
  · simp [hlen]
  · intro i hi
    refine ⟨Agent.dataRow (cols.map (fun c =>
      Agent.dataCell env ((c.2.lookup (toString i)).getD .undefined))), ?_, rfl, ?_, ?_⟩
    · rw [hlen, List.getElem?_map, List.getElem?_range hi]
      rfl
    · simp [Agent.dataRow]
    · intro j c hc
      have hmem : c ∈ cols := List.getElem?_mem hc
      have hk : toString i ∈ c.2.map Prod.fst := by
        rw [hkeys c hmem]
        exact List.mem_map_of_mem _ (List.mem_range.mpr hi)
      obtain ⟨v, hv⟩ := lookup_isSome_of_mem_keys c.2 (toString i) hk
      refine ⟨v, hv, ?_⟩
      simp [Agent.dataRow, hc, hv]

/-- C5 at the specification's example: header `(a, b)` and the data rows `(x, 1)` and
`(y, 2)`. -/
theorem getMessageDataframe_grid_witness :
    (∃ header rows,
      Agent.getMessageDataframe sampleEnv
          (.str "\x7b\"a\":\x7b\"0\":\"x\",\"1\":\"y\"\x7d,\"b\":\x7b\"0\":\"1\",\"1\":\"2\"\x7d\x7d")
        = .ok { createElement "table" with
                classList := ["dataframe-message"]
                children := header :: rows } ∧
      header.tag = "tr" ∧
      header.children = ["a", "b"].map Agent.headerCell ∧
      rows.length = 2 ∧
      ∀ i : Nat, i < 2 → ∃ row, rows[i]? = some row ∧ row.tag = "tr" ∧
        row.children.length = 2 ∧
        ∀ (j : Nat) (c : String × List (String × JSVal)), [("a", [("0", JSVal.str "x"), ("1", JSVal.str "y")]),
                ("b", [("0", JSVal.str "1"), ("1", JSVal.str "2")])][j]? = some c →
          ∃ v, c.2.lookup (toString i) = some v ∧
            row.children[j]? = some (Agent.dataCell sampleEnv v)) ∧
    (Agent.getMessageDataframe sampleEnv
        (.str "\x7b\"a\":\x7b\"0\":\"x\",\"1\":\"y\"\x7d,\"b\":\x7b\"0\":\"1\",\"1\":\"2\"\x7d\x7d")).toOption.map
        (fun table => table.children.map (fun row => row.children.map (fun cell =>
          (cell.tag, cell.textContent))))
      = some [[("th", "a"), ("th", "b")], [("td", "x"), ("td", "1")], [("td", "y"), ("td", "2")]] :=
  ⟨getMessageDataframe_grid sampleEnv _
      [("a", [("0", .str "x"), ("1", .str "y")]), ("b", [("0", .str "1"), ("1", .str "2")])] 2
      rfl (by simp) (by decide)
      (by
        intro c hc
        simp only [List.mem_cons, List.mem_singleton, List.mem_nil_iff, or_false] at hc
        rcases hc with rfl | rfl <;> rfl),
    rfl⟩

/-! ### The chart renderer -/

theorem lookup_putProp_self (k : String) (w : JSVal) :
    ∀ props : List (String × JSVal), (putProp k w props).lookup k = some w
  | [] => by simp [putProp, List.lookup]
  | (k', v) :: rest => by
    by_cases h : k' = k
    · simp [putProp, h, List.lookup]
    · have hbeq : (k == k') = false := by simpa using fun h' : k = k' => h h'.symm
      simp [putProp, h, List.lookup, hbeq, lookup_putProp_self k w rest]

theorem lookup_putProp_ne (k k' : String) (w : JSVal) (hne : k' ≠ k) :
    ∀ props : List (String × JSVal), (putProp k w props).lookup k' = props.lookup k'
  | [] => by
    have hbeq : (k' == k) = false := by simpa using hne
    simp [putProp, List.lookup, hbeq]
  | (k'', v) :: rest => by
    by_cases h : k'' = k
    · subst h
      have hbeq : (k' == k'') = false := by simpa using hne
      simp [putProp, List.lookup, hbeq]
    · by_cases h2 : k' = k''
      · subst h2
        simp [putProp, h, List.lookup]
      · have hbeq : (k' == k'') = false := by simpa using h2
        simp [putProp, h, List.lookup, hbeq, lookup_putProp_ne k k' w hne rest]

/-- The assignment `chartJSON.layout[k] = w` on a chart whose layout is a plain object. -/
theorem assignIn_layout (props lp : List (String × JSVal)) (k : String) (w : JSVal)
    (h : props.lookup "layout" = some (.obj false lp)) :
    ∃ props' lp', assignIn (.obj false props) "layout" k w = .ok (.obj false props') ∧
      props'.lookup "layout" = some (.obj false lp') ∧
      lp'.lookup k = some w ∧
      (∀ k', k' ≠ k → lp'.lookup k' = lp.lookup k') ∧
      (∀ k', k' ≠ "layout" → props'.lookup k' = props.lookup k') := by
  refine ⟨putProp "layout" (.obj false (putProp k w lp)) props, putProp k w lp, ?_,
    lookup_putProp_self _ _ _, lookup_putProp_self _ _ _,
    fun k' hk => lookup_putProp_ne k k' w hk lp,
    fun k' hk => lookup_putProp_ne "layout" k' _ hk props⟩
  simp [assignIn, getProp_plain, h, setProp, bind, Except.bind]

/-- What `prepareChart` returns on a well-formed chart body: a plain object whose layout is a
plain object of the compact size, with the `data` of the body. -/
theorem prepareChart_ok (env : Env) (s : String) (props : List (String × JSVal))
    (hparse : env.jsonParse s = some (.obj false props)) (hwf : WellFormedChart props) :
    ∃ props' lp', Agent.prepareChart env (.str s) = .ok (.obj false props') ∧
      props'.lookup "layout" = some (.obj false lp') ∧
      lp'.lookup "width" = some (.num 350) ∧ lp'.lookup "height" = some (.num 275) ∧
      props'.lookup "data" = props.lookup "data" := by
  have hparse' : parseJSON env (.str s) = .ok (.obj false props) := by
    simp [parseJSON, toStr, hparse]
  obtain ⟨l1, hl1⟩ : ∃ lp1, (if truthy ((props.lookup "layout").getD .undefined) = true
      then (props.lookup "layout").getD .undefined else JSVal.obj false []) = .obj false lp1 := by
    cases hl : props.lookup "layout" with
    | none => exact ⟨[], by simp [truthy]⟩
    | some v =>
      by_cases ht : truthy v = true
      · obtain ⟨lp, rfl⟩ := hwf v hl ht
        exact ⟨lp, by simp [truthy]⟩
      · exact ⟨[], by simp [ht]⟩
  have h0 : (putProp "layout" (.obj false l1) props).lookup "layout" = some (.obj false l1) :=
    lookup_putProp_self _ _ _
  obtain ⟨p2, l2, e2, hl2, -, -, hp2⟩ := assignIn_layout _ l1 "autosize" (.bool true) h0
  obtain ⟨p3, l3, e3, hl3, hw3, -, hp3⟩ := assignIn_layout p2 l2 "width" (.num 350) hl2
  obtain ⟨p4, l4, e4, hl4, hh4, ho4, hp4⟩ := assignIn_layout p3 l3 "height" (.num 275) hl3
  obtain ⟨p5, l5, e5, hl5, -, ho5, hp5⟩ := assignIn_layout p4 l4 "responsive" (.bool true) hl4
  refine ⟨p5, l5, ?_, hl5, ?_, ?_, ?_⟩
  · simp only [Agent.prepareChart, hparse', getProp_plain, bind, Except.bind, setProp, hl1,
      Agent.chartWidth, Agent.chartHeight, e2, e3, e4, e5]
  · rw [ho5 "width" (by decide), ho4 "width" (by decide), hw3]
  · rw [ho5 "height" (by decide), hh4]
  · rw [hp5 "data" (by decide), hp4 "data" (by decide), hp3 "data" (by decide),
      hp2 "data" (by decide), lookup_putProp_ne "layout" "data" _ (by decide)]

theorem layoutProp_of_lookup (c : Chart) (props lp : List (String × JSVal)) (k : String)
    (w : JSVal) (hj : c.chartJSON = .obj false props)
    (hl : props.lookup "layout" = some (.obj false lp)) (hk : lp.lookup k = some w) :
    c.layoutProp k = some w := by
  simp [Chart.layoutProp, hj, getProp_plain, hl, hk, Except.toOption]

/-- A click on `View Full Screen` of a ready chart. -/
theorem fullScreenButtonClick_ready (c : Chart) (hc : ChartReady c) (w h : ℚ) :
    ∃ c1, Agent.fullScreenButtonClick w h c = .ok c1 ∧ ChartReady c1 ∧
      c1.layoutProp "width" = some (.num (w * (9 / 10))) ∧
      c1.layoutProp "height" = some (.num (h * (9 / 10))) ∧
      c1.modalDisplay = "flex" ∧
      (∃ plot, c1.fullscreenPlot = some plot ∧
        getProp plot.layout "width" = .ok (.num (w * (9 / 10))) ∧
        getProp plot.layout "height" = .ok (.num (h * (9 / 10)))) ∧
      c1.inlinePlot = c.inlinePlot := by
  obtain ⟨props, lp, hj, hl⟩ := hc
  obtain ⟨p1, l1, e1, hl1, hw1, -, -⟩ := assignIn_layout props lp "width" (.num (w * (9 / 10))) hl
  obtain ⟨p2, l2, e2, hl2, hh2, ho2, -⟩ :=
    assignIn_layout p1 l1 "height" (.num (h * (9 / 10))) hl1
  have hw2 : l2.lookup "width" = some (.num (w * (9 / 10))) := by
    rw [ho2 "width" (by decide), hw1]
  refine ⟨{ c with chartJSON := .obj false p2,
                   fullscreenPlot := some ⟨(p2.lookup "data").getD .undefined, .obj false l2⟩,
                   modalDisplay := "flex" }, ?_, ⟨p2, l2, rfl, hl2⟩,
    layoutProp_of_lookup _ p2 l2 _ _ rfl hl2 hw2, layoutProp_of_lookup _ p2 l2 _ _ rfl hl2 hh2,
    rfl, ⟨_, rfl, ?_, ?_⟩, rfl⟩
  · simp [Agent.fullScreenButtonClick, hj, e1, e2, Agent.plotOf, getProp_plain, hl2, bind,
      Except.bind, pure, Except.pure]
  · simp [getProp_plain, hw2]
  · simp [getProp_plain, hh2]

/-- A click on the fullscreen modal itself, on a ready chart. -/
theorem fullscreenModalClick_ready (c : Chart) (hc : ChartReady c) :
    ∃ c2, Agent.fullscreenModalClick true c = .ok c2 ∧ ChartReady c2 ∧
      c2.layoutProp "width" = some (.num 350) ∧
      c2.layoutProp "height" = some (.num 275) ∧
      c2.fullscreenPlot = none ∧ c2.modalDisplay = "none" ∧
      c2.inlinePlot = c.inlinePlot := by
  obtain ⟨props, lp, hj, hl⟩ := hc
  obtain ⟨p1, l1, e1, hl1, hw1, -, -⟩ := assignIn_layout props lp "width" (.num 350) hl
  obtain ⟨p2, l2, e2, hl2, hh2, ho2, -⟩ := assignIn_layout p1 l1 "height" (.num 275) hl1
  have hw2 : l2.lookup "width" = some (.num 350) := by
    rw [ho2 "width" (by decide), hw1]
  refine ⟨{ c with chartJSON := .obj false p2, fullscreenPlot := none, modalDisplay := "none" },
    ?_, ⟨p2, l2, rfl, hl2⟩,
    layoutProp_of_lookup _ p2 l2 _ _ rfl hl2 hw2, layoutProp_of_lookup _ p2 l2 _ _ rfl hl2 hh2,
    rfl, rfl, rfl⟩
  simp [Agent.fullscreenModalClick, hj, Agent.chartWidth, Agent.chartHeight, e1, e2, bind,
    Except.bind, pure, Except.pure]

/-- Every sequence of clicks on a ready chart runs without an exception and ends in a ready
chart. -/
theorem runChart_ready : ∀ (evs : List ChartEvent) (c : Chart), ChartReady c →
    ∃ c', runChart c evs = .ok c' ∧ ChartReady c'
  | [], c, hc => ⟨c, rfl, hc⟩
  | e :: rest, c, hc => by
    have hstep : ∃ c1, chartStep c e = .ok c1 ∧ ChartReady c1 := by
      cases e with
      | viewFullScreen w h =>
        obtain ⟨c1, h1, hr, -⟩ := fullScreenButtonClick_ready c hc w h
        exact ⟨c1, h1, hr⟩
      | modalClick t =>
        cases t with
        | true =>
          obtain ⟨c1, h1, hr, -⟩ := fullscreenModalClick_ready c hc
          exact ⟨c1, h1, hr⟩
        | false => exact ⟨c, by simp [chartStep, Agent.fullscreenModalClick, pure, Except.pure], hc⟩
    obtain ⟨c1, h1, hr1⟩ := hstep
    obtain ⟨c', h', hr'⟩ := runChart_ready rest c1 hr1
    exact ⟨c', by simp [runChart, h1, h', bind, Except.bind], hr'⟩

/-- What `getMessagePlotly` does on a well-formed chart body: it returns the chart container and
adds one ready chart of the compact size, with the inline plot mounted and no fullscreen plot. -/
theorem getMessagePlotly_ok (env : Env) (s : String) (props : List (String × JSVal))
    (page : Page) (hparse : env.jsonParse s = some (.obj false props))
    (hwf : WellFormedChart props) :
    ∃ node c0, Agent.getMessagePlotly env (.str s) page
        = ⟨{ page with charts := page.charts ++ [c0] }, .ok node⟩ ∧
      ChartReady c0 ∧
      c0.layoutProp "width" = some (.num 350) ∧ c0.layoutProp "height" = some (.num 275) ∧
      c0.inlinePlot.isSome = true ∧ c0.fullscreenPlot = none ∧
      node.tag = "div" ∧ node.classList = ["plotly-message"] := by
  obtain ⟨p, l, hprep, hl, hw, hh, -⟩ := prepareChart_ok env s props hparse hwf
  refine ⟨{ createElement "div" with
            classList := ["plotly-message"]
            children :=
              [{ createElement "a" with
                 classList := ["button"]
                 textContent := "View Full Screen"
                 style := [("backgroundColor", domMarkup env env.themeColor)]
                 listener := some (.viewFullScreen page.charts.length) }] },
    { chartJSON := .obj false p,
      inlinePlot := some ⟨(p.lookup "data").getD .undefined, .obj false l⟩,
      fullscreenPlot := none, modalDisplay := "" }, ?_, ⟨p, l, rfl, hl⟩,
    layoutProp_of_lookup _ p l _ _ rfl hl hw, layoutProp_of_lookup _ p l _ _ rfl hl hh,
    rfl, rfl, rfl, rfl⟩
  simp only [Agent.getMessagePlotly, hprep, Agent.plotOf, getProp_plain, hl, bind, Except.bind,
    pure, Except.pure, Except.map, Option.getD_some]

/-- C8. For every chart `getMessagePlotly` renders from a well-formed body, after every
sequence of clicks on it: a click on `View Full Screen` in a viewport of any size sets the layout
to 90% of the viewport width and height, mounts the full-size plot and shows the overlay, and a
following click on the overlay itself restores the layout to 350 x 275, purges the full-size plot
and hides the overlay; a click on the overlay itself always leaves no full-size plot mounted; a
click inside the chart area changes nothing. -/
theorem plotly_fullscreen_cycle (env : Env) (s : String) (props : List (String × JSVal))
    (page : Page) (evs : List ChartEvent)
    (hparse : env.jsonParse s = some (.obj false props)) (hwf : WellFormedChart props) :
    ∃ node c0 c,
      Agent.getMessagePlotly env (.str s) page
        = ⟨{ page with charts := page.charts ++ [c0] }, .ok node⟩ ∧
      c0.layoutProp "width" = some (.num 350) ∧ c0.layoutProp "height" = some (.num 275) ∧
      c0.fullscreenPlot = none ∧
      runChart c0 evs = .ok c ∧
      (∀ w h : ℚ, ∃ c1 c2 plot,
        Agent.fullScreenButtonClick w h c = .ok c1 ∧
        c1.layoutProp "width" = some (.num (w * (9 / 10))) ∧
        c1.layoutProp "height" = some (.num (h * (9 / 10))) ∧
        c1.modalDisplay = "flex" ∧
        c1.fullscreenPlot = some plot ∧
        getProp plot.layout "width" = .ok (.num (w * (9 / 10))) ∧
        getProp plot.layout "height" = .ok (.num (h * (9 / 10))) ∧
        Agent.fullscreenModalClick false c1 = .ok c1 ∧
        Agent.fullscreenModalClick true c1 = .ok c2 ∧
        c2.layoutProp "width" = some (.num 350) ∧
        c2.layoutProp "height" = some (.num 275) ∧
        c2.fullscreenPlot = none ∧ c2.modalDisplay = "none") ∧
      (∃ c2, Agent.fullscreenModalClick true c = .ok c2 ∧
        c2.layoutProp "width" = some (.num 350) ∧
        c2.layoutProp "height" = some (.num 275) ∧
        c2.fullscreenPlot = none ∧ c2.modalDisplay = "none") ∧
      Agent.fullscreenModalClick false c = .ok c := by
  obtain ⟨node, c0, hrender, hr0, hw0, hh0, -, hf0, -, -⟩ :=
    getMessagePlotly_ok env s props page hparse hwf
  obtain ⟨c, hrun, hrc⟩ := runChart_ready evs c0 hr0
  refine ⟨node, c0, c, hrender, hw0, hh0, hf0, hrun, ?_, ?_, ?_⟩
  · intro w h
    obtain ⟨c1, e1, hr1, hw1, hh1, hd1, ⟨plot, hp, hpw, hph⟩, -⟩ :=
      fullScreenButtonClick_ready c hrc w h
    obtain ⟨c2, e2, -, hw2, hh2, hf2, hd2, -⟩ := fullscreenModalClick_ready c1 hr1
    exact ⟨c1, c2, plot, e1, hw1, hh1, hd1, hp, hpw, hph,
      by simp [Agent.fullscreenModalClick, pure, Except.pure], e2, hw2, hh2, hf2, hd2⟩
  · obtain ⟨c2, e2, -, hw2, hh2, hf2, hd2, -⟩ := fullscreenModalClick_ready c hrc
    exact ⟨c2, e2, hw2, hh2, hf2, hd2⟩
  · simp [Agent.fullscreenModalClick, pure, Except.pure]

/-- C8 on the chart body `{"data":[]}` of the sample environment, after a click on
`View Full Screen` in a 1000 x 800 viewport and a click inside the chart. -/
theorem plotly_fullscreen_cycle_witness :
    ∃ node c0 c,
      Agent.getMessagePlotly sampleEnv (.str "\x7b\"data\":[]\x7d") {}
        = ⟨{ ({} : Page) with charts := ({} : Page).charts ++ [c0] }, .ok node⟩ ∧
      c0.layoutProp "width" = some (.num 350) ∧ c0.layoutProp "height" = some (.num 275) ∧
      c0.fullscreenPlot = none ∧
      runChart c0 [.viewFullScreen 1000 800, .modalClick false] = .ok c ∧
      (∀ w h : ℚ, ∃ c1 c2 plot,
        Agent.fullScreenButtonClick w h c = .ok c1 ∧
        c1.layoutProp "width" = some (.num (w * (9 / 10))) ∧
        c1.layoutProp "height" = some (.num (h * (9 / 10))) ∧
        c1.modalDisplay = "flex" ∧
        c1.fullscreenPlot = some plot ∧
        getProp plot.layout "width" = .ok (.num (w * (9 / 10))) ∧
        getProp plot.layout "height" = .ok (.num (h * (9 / 10))) ∧
        Agent.fullscreenModalClick false c1 = .ok c1 ∧
        Agent.fullscreenModalClick true c1 = .ok c2 ∧
        c2.layoutProp "width" = some (.num 350) ∧
        c2.layoutProp "height" = some (.num 275) ∧
        c2.fullscreenPlot = none ∧ c2.modalDisplay = "none") ∧
      (∃ c2, Agent.fullscreenModalClick true c = .ok c2 ∧
        c2.layoutProp "width" = some (.num 350) ∧
        c2.layoutProp "height" = some (.num 275) ∧
        c2.fullscreenPlot = none ∧ c2.modalDisplay = "none") ∧
      Agent.fullscreenModalClick false c = .ok c :=
  plotly_fullscreen_cycle sampleEnv "\x7b\"data\":[]\x7d" [("data", .obj true [])] {}
    [.viewFullScreen 1000 800, .modalClick false] rfl
    (fun v hv => by simp [List.lookup] at hv)

/-! ### Sending -/

/-- The richer `displayMessage` on the payload `sendMessage` builds from a non-empty text. -/
theorem agent_displayMessage_user (env : Env) (page : Page) (t : String) (ht : t ≠ "") :
    Agent.displayMessage env (Agent.userPayload t) "user-message" page
      = ⟨{ page with chatMessages := page.chatMessages ++
            [(Agent.getMessageStr env (.str t)).addClass "user-message"] }, .ok ()⟩ := by
  simp [Agent.displayMessage, Agent.userPayload, getProp, List.lookup, Agent.selectRenderer,
    strictEqStr, truthy, ht, Agent.rendered, Agent.appendMessage, Except.map]

/-- The reduced `displayMessage` on the payload `sendMessage` builds from a non-empty text. -/
theorem bot_displayMessage_user (env : Env) (page : Page) (t : String) (ht : t ≠ "") :
    Bot.displayMessage env (Agent.userPayload t) "user-message" page
      = ⟨{ page with chatMessages := page.chatMessages ++
            [(Bot.getMessageStr env (.str t)).addClass "user-message"] }, .ok ()⟩ := by
  simp [Bot.displayMessage, Agent.userPayload, getProp, List.lookup, Bot.selectRenderer,
    strictEqStr, truthy, ht, Agent.rendered, Agent.appendMessage, Except.map]

/-- The richer `sendMessage` on a non-empty input: the entry is displayed, then `ws.send` runs
on the page with the entry, then the input is cleared if `ws.send` returned. -/
theorem agent_sendMessage_eq (env : Env) (page : Page) (t : String)
    (hinput : page.messageInput = t) (ht : t ≠ "") :
    Agent.sendMessage env page
      = match page.wsReadyState with
        | .CONNECTING =>
          ⟨{ page with chatMessages := page.chatMessages ++
              [(Agent.getMessageStr env (.str t)).addClass "user-message"] },
            .error .invalidStateError⟩
        | .OPEN =>
          ⟨{ page with
             chatMessages := page.chatMessages ++
               [(Agent.getMessageStr env (.str t)).addClass "user-message"]
             wsSent := page.wsSent ++ [env.jsonStringify (Agent.userPayload t)]
             messageInput := "" }, .ok ()⟩
        | _ =>
          ⟨{ page with
             chatMessages := page.chatMessages ++
               [(Agent.getMessageStr env (.str t)).addClass "user-message"]
             messageInput := "" }, .ok ()⟩ := by
  cases hs : page.wsReadyState <;>
    simp [Agent.sendMessage, hinput, ht, agent_displayMessage_user env page t ht, wsSend, hs]

/-- The reduced `sendMessage` on a non-empty input: the entry is displayed, then `ws.send` runs
on the page with the entry, then the input is cleared if `ws.send` returned. -/
theorem bot_sendMessage_eq (env : Env) (page : Page) (t : String)
    (hinput : page.messageInput = t) (ht : t ≠ "") :
    Bot.sendMessage env page
      = match page.wsReadyState with
        | .CONNECTING =>
          ⟨{ page with chatMessages := page.chatMessages ++
              [(Bot.getMessageStr env (.str t)).addClass "user-message"] },
            .error .invalidStateError⟩
        | .OPEN =>
          ⟨{ page with
             chatMessages := page.chatMessages ++
               [(Bot.getMessageStr env (.str t)).addClass "user-message"]
             wsSent := page.wsSent ++ [env.jsonStringify (Agent.userPayload t)]
             messageInput := "" }, .ok ()⟩
        | _ =>
          ⟨{ page with
             chatMessages := page.chatMessages ++
               [(Bot.getMessageStr env (.str t)).addClass "user-message"]
             messageInput := "" }, .ok ()⟩ := by
  cases hs : page.wsReadyState <;>
    simp [Bot.sendMessage, hinput, ht, bot_displayMessage_user env page t ht, wsSend, hs]

/-- C3 as stated fails: with the text `hello` in the input while the socket is still connecting,
`sendMessage` displays the entry, then `ws.send` throws an `InvalidStateError`: no frame is sent
and the input keeps its text. -/
theorem sendMessage_while_connecting :
    (Agent.sendMessage sampleEnv
        { messageInput := "hello", wsReadyState := .CONNECTING }).value
      = .error .invalidStateError ∧
    (Agent.sendMessage sampleEnv
        { messageInput := "hello", wsReadyState := .CONNECTING }).page.wsSent = [] ∧
    (Agent.sendMessage sampleEnv
        { messageInput := "hello", wsReadyState := .CONNECTING }).page.messageInput = "hello" ∧
    (Agent.sendMessage sampleEnv
        { messageInput := "hello", wsReadyState := .CONNECTING }).page.chatMessages.map
        (fun n => (n.tag, n.textContent, n.classList))
      = [("p", "hello", ["str-message", "user-message"])] :=
  ⟨rfl, rfl, rfl, rfl⟩

/-- C3, amended. With a non-empty text `t` in the input, `sendMessage` first displays the
payload: the transcript gains exactly one entry, the `p` element of the text renderer with text
`t` and the classes `str-message` and `user-message`, and nothing else on the page changes; it
then calls `ws.send` with the serialisation of `{action: "user_message", message: t}`. When the
socket is open, exactly that one frame is sent, the input is cleared and `sendMessage` returns
normally. While the socket is connecting, `ws.send` throws after the entry has been displayed:
no frame is sent and the input keeps its text. On a closing or closed socket no frame is
transmitted and the input is cleared. -/
theorem sendMessage_nonempty (env : Env) (page : Page) (t : String)
    (hinput : page.messageInput = t) (ht : t ≠ "") :
    ((Agent.getMessageStr env (.str t)).addClass "user-message").tag = "p" ∧
    ((Agent.getMessageStr env (.str t)).addClass "user-message").textContent = t ∧
    ((Agent.getMessageStr env (.str t)).addClass "user-message").classList
      = ["str-message", "user-message"] ∧
    Agent.displayMessage env (Agent.userPayload t) "user-message" page
      = ⟨{ page with chatMessages := page.chatMessages ++
            [(Agent.getMessageStr env (.str t)).addClass "user-message"] }, .ok ()⟩ ∧
    (page.wsReadyState = .OPEN →
      Agent.sendMessage env page
        = ⟨{ page with
             chatMessages := page.chatMessages ++
               [(Agent.getMessageStr env (.str t)).addClass "user-message"]
             wsSent := page.wsSent ++ [env.jsonStringify (Agent.userPayload t)]
             messageInput := "" }, .ok ()⟩) ∧
    (page.wsReadyState = .CONNECTING →
      Agent.sendMessage env page
        = ⟨{ page with chatMessages := page.chatMessages ++
              [(Agent.getMessageStr env (.str t)).addClass "user-message"] },
            .error .invalidStateError⟩) ∧
    (page.wsReadyState = .CLOSING ∨ page.wsReadyState = .CLOSED →
      Agent.sendMessage env page
        = ⟨{ page with
             chatMessages := page.chatMessages ++
               [(Agent.getMessageStr env (.str t)).addClass "user-message"]
             messageInput := "" }, .ok ()⟩) := by
  have hsend := agent_sendMessage_eq env page t hinput ht
  refine ⟨rfl, ?_, ?_, agent_displayMessage_user env page t ht, ?_, ?_, ?_⟩
  · simp [Agent.getMessageStr, Node.addClass, domText, toStr]
  · simp [Agent.getMessageStr, Node.addClass]
  · intro hs
    rw [hsend, hs]
  · intro hs
    rw [hsend, hs]
  · intro hs
    rcases hs with hs | hs <;> rw [hsend, hs]

/-- C3, amended, at the text `hello` on an otherwise empty page of the sample environment whose
socket is open: one entry `p.str-message.user-message` reading `hello`, the one frame
`{"action":"user_message","message":"hello"}`, and an empty input. -/
theorem sendMessage_nonempty_witness :
    ((Agent.sendMessage sampleEnv
        { messageInput := "hello", wsReadyState := .OPEN }).page.chatMessages.map
        (fun n => (n.tag, n.textContent, n.classList))
      = [("p", "hello", ["str-message", "user-message"])]) ∧
    (Agent.sendMessage sampleEnv { messageInput := "hello", wsReadyState := .OPEN }).page.wsSent
      = ["\x7b\"action\":\"user_message\",\"message\":\"hello\"\x7d"] ∧
    (Agent.sendMessage sampleEnv
        { messageInput := "hello", wsReadyState := .OPEN }).page.messageInput = "" ∧
    (Agent.sendMessage sampleEnv { messageInput := "hello", wsReadyState := .OPEN }).value
      = .ok () :=
  have h := (sendMessage_nonempty sampleEnv { messageInput := "hello", wsReadyState := .OPEN }
    "hello" rfl (by decide)).2.2.2.2.1 rfl
  ⟨by rw [h]; rfl, by rw [h]; rfl, by rw [h], by rw [h]⟩

/-- C4 as stated fails: with the whitespace-only text `" "` in the input and the socket open,
`sendMessage` of either script appends an entry, sends the frame
`{"action":"user_message","message":" "}` and clears the input. -/
theorem sendMessage_whitespace_is_sent :
    ((Agent.sendMessage sampleEnv
        { messageInput := " ", wsReadyState := .OPEN }).page.chatMessages.map
        (fun n => (n.tag, n.textContent, n.classList))
      = [("p", " ", ["str-message", "user-message"])] ∧
    (Agent.sendMessage sampleEnv { messageInput := " ", wsReadyState := .OPEN }).page.wsSent
      = ["\x7b\"action\":\"user_message\",\"message\":\" \"\x7d"] ∧
    (Agent.sendMessage sampleEnv
        { messageInput := " ", wsReadyState := .OPEN }).page.messageInput = "") ∧
    ((Bot.sendMessage sampleEnv
        { messageInput := " ", wsReadyState := .OPEN }).page.chatMessages.map
        (fun n => (n.tag, n.textContent, n.classList))
      = [("p", " ", ["str-message", "user-message"])] ∧
    (Bot.sendMessage sampleEnv { messageInput := " ", wsReadyState := .OPEN }).page.wsSent
      = ["\x7b\"action\":\"user_message\",\"message\":\" \"\x7d"] ∧
    (Bot.sendMessage sampleEnv
        { messageInput := " ", wsReadyState := .OPEN }).page.messageInput = "") :=
  ⟨⟨rfl, rfl, rfl⟩, ⟨rfl, rfl, rfl⟩⟩

/-- C4, amended. With an empty input `sendMessage` of either script is a no-op: the page
(transcript, sent frames, input) is returned unchanged. With any non-empty input, a
whitespace-only one included, it appends one entry to the transcript, whatever the state of the
socket, and when the socket is open it also sends one frame and clears the input. -/
theorem sendMessage_empty_noop (env : Env) (page : Page) :
    (page.messageInput = "" →
      Agent.sendMessage env page = ⟨page, .ok ()⟩ ∧ Bot.sendMessage env page = ⟨page, .ok ()⟩) ∧
    (page.messageInput ≠ "" →
      (Agent.sendMessage env page).page.chatMessages.length = page.chatMessages.length + 1 ∧
      (Bot.sendMessage env page).page.chatMessages.length = page.chatMessages.length + 1 ∧
      (page.wsReadyState = .OPEN →
        ((Agent.sendMessage env page).page.wsSent
            = page.wsSent ++ [env.jsonStringify (Agent.userPayload page.messageInput)] ∧
          (Agent.sendMessage env page).page.messageInput = "" ∧
          (Agent.sendMessage env page).value = .ok ()) ∧
        ((Bot.sendMessage env page).page.wsSent
            = page.wsSent ++ [env.jsonStringify (Agent.userPayload page.messageInput)] ∧
          (Bot.sendMessage env page).page.messageInput = "" ∧
          (Bot.sendMessage env page).value = .ok ()))) := by
  constructor
  · intro h
    simp [Agent.sendMessage, Bot.sendMessage, h]
  · intro h
    have ha := agent_sendMessage_eq env page page.messageInput rfl h
    have hb := bot_sendMessage_eq env page page.messageInput rfl h
    refine ⟨?_, ?_, ?_⟩
    · rw [ha]
      cases page.wsReadyState <;> simp
    · rw [hb]
      cases page.wsReadyState <;> simp
    · intro hs
      rw [hs] at ha hb
      rw [ha, hb]
      exact ⟨⟨rfl, rfl, rfl⟩, ⟨rfl, rfl, rfl⟩⟩

/-- C4, amended, on a page with an empty input and on a page with an open socket whose input is
`" "`. -/
theorem sendMessage_empty_noop_witness :
    (Agent.sendMessage sampleEnv {} = ⟨{}, .ok ()⟩ ∧ Bot.sendMessage sampleEnv {} = ⟨{}, .ok ()⟩) ∧
    (Agent.sendMessage sampleEnv
        { messageInput := " ", wsReadyState := .OPEN }).page.chatMessages.length = 1 ∧
    (Agent.sendMessage sampleEnv { messageInput := " ", wsReadyState := .OPEN }).page.wsSent
      = [] ++ [sampleEnv.jsonStringify (Agent.userPayload " ")] :=
  ⟨(sendMessage_empty_noop sampleEnv {}).1 rfl,
   ((sendMessage_empty_noop sampleEnv { messageInput := " ", wsReadyState := .OPEN }).2
      (by decide)).1,
   (((sendMessage_empty_noop sampleEnv { messageInput := " ", wsReadyState := .OPEN }).2
      (by decide)).2.2 rfl).1.1⟩

/-! ### Window visibility -/

/-- C7, the code at the failing sequence: from the hidden widget, an open and a close whose
callback fires end hidden (class `visible` absent, style `hidden`); but after open, close,
reopen, the callback of the earlier close still fires and leaves the window with the class
`visible` and the style `visibility: hidden`, in both scripts. -/
theorem toggle_stale_close_after_reopen :
    ((fireTimer 0 (Agent.toggleChatWindow (Agent.toggleChatWindow {}))).windowClassVisible = false ∧
      (fireTimer 0 (Agent.toggleChatWindow (Agent.toggleChatWindow {}))).windowStyleVisibility
        = "hidden") ∧
    ((Agent.toggleChatWindow (Agent.toggleChatWindow (Agent.toggleChatWindow {}))).timers.length = 1 ∧
      (fireTimer 0 (Agent.toggleChatWindow (Agent.toggleChatWindow
        (Agent.toggleChatWindow {})))).windowClassVisible = true ∧
      (fireTimer 0 (Agent.toggleChatWindow (Agent.toggleChatWindow
        (Agent.toggleChatWindow {})))).windowStyleVisibility = "hidden") ∧
    ((Bot.toggleChatWindow (Bot.toggleChatWindow (Bot.toggleChatWindow {}))).timers.length = 1 ∧
      (fireTimer 0 (Bot.toggleChatWindow (Bot.toggleChatWindow
        (Bot.toggleChatWindow {})))).windowClassVisible = true ∧
      (fireTimer 0 (Bot.toggleChatWindow (Bot.toggleChatWindow
        (Bot.toggleChatWindow {})))).windowStyleVisibility = "hidden") :=
  ⟨⟨rfl, rfl⟩, ⟨rfl, rfl, rfl⟩, ⟨rfl, rfl, rfl⟩⟩

/-! ### Unknown action kinds in the dispatcher -/

/-- C9, the code at the failing input: on the payload `{action: "ping", message: "x"}`
`displayMessage` of either script logs the warning, leaves the transcript empty, and then throws
a `TypeError` instead of returning. -/
theorem displayMessage_unknown_action_throws :
    ((Agent.displayMessage sampleEnv (mkPayload "ping" (.str "x")) "agent-message" {}).value
        = .error .typeError ∧
      (Agent.displayMessage sampleEnv (mkPayload "ping" (.str "x")) "agent-message" {}).page.console
        = [⟨.warn, "Received unknown message format:"⟩] ∧
      (Agent.displayMessage sampleEnv (mkPayload "ping" (.str "x"))
        "agent-message" {}).page.chatMessages.length = 0) ∧
    ((Bot.displayMessage sampleEnv (mkPayload "ping" (.str "x")) "bot-message" {}).value
        = .error .typeError ∧
      (Bot.displayMessage sampleEnv (mkPayload "ping" (.str "x")) "bot-message" {}).page.console
        = [⟨.warn, "Received unknown message format:"⟩] ∧
      (Bot.displayMessage sampleEnv (mkPayload "ping" (.str "x"))
        "bot-message" {}).page.chatMessages.length = 0) :=
  ⟨⟨rfl, rfl, rfl⟩, ⟨rfl, rfl, rfl⟩⟩

/-! ### Supported action kinds in the richer dispatcher -/

/-- The document nodes of `getMessageRAG` exist when every document is well formed. -/
theorem ragDocNodes_ok (env : Env) (total : Nat) :
    ∀ (docs : List JSVal) (i : Nat), (∀ d ∈ docs, WellFormedDoc d) →
      ∃ nodes, Agent.ragDocNodes env total i docs = .ok nodes
  | [], _, _ => ⟨[], rfl⟩
  | d :: rest, i, h => by
    obtain ⟨dprops, mprops, rfl, hm⟩ := h d (List.mem_cons_self _ _)
    obtain ⟨nodes, hn⟩ := ragDocNodes_ok env total rest (i + 1)
      (fun x hx => h x (List.mem_cons_of_mem _ hx))
    simp only [Agent.ragDocNodes, getProp_plain, hm, hn, bind, Except.bind, pure, Except.pure,
      Option.getD_some]
    exact ⟨_, rfl⟩

/-- The renderer `getMessageRAG` returns a node on a well-formed body. -/
theorem getMessageRAG_ok (env : Env) (props docs : List (String × JSVal))
    (hdocs : props.lookup "docs" = some (.obj true docs))
    (hwf : ∀ d ∈ arrayElems docs, WellFormedDoc d) :
    ∃ node, Agent.getMessageRAG env (.obj false props) = .ok node := by
  obtain ⟨nodes, hn⟩ := ragDocNodes_ok env (arrayElems docs).length (arrayElems docs) 0 hwf
  simp only [Agent.getMessageRAG, getProp_plain, hdocs, hn, bind, Except.bind, pure,
    Except.pure, Option.getD_some]
  exact ⟨_, rfl⟩

/-- The end of the richer `displayMessage` once the chain has assigned `messageElement`. -/
theorem agent_displayMessage_of_select (env : Env) (kind : String) (body : JSVal)
    (className : String) (page page' : Page) (node : Node)
    (hsel : Agent.selectRenderer env (.str kind) body page = ⟨page', .ok (some node)⟩) :
    Agent.displayMessage env (mkPayload kind body) className page
      = ⟨{ page' with chatMessages := page'.chatMessages ++ [node.addClass className] },
          .ok ()⟩ := by
  have ha : getProp (mkPayload kind body) "action" = .ok (.str kind) := by
    simp [mkPayload, getProp, List.lookup]
  have hm : getProp (mkPayload kind body) "message" = .ok body := by
    simp [mkPayload, getProp, List.lookup]
  simp [Agent.displayMessage, ha, hm, hsel, Agent.appendMessage]

/-- On a well-formed non-empty body the chain of the richer `displayMessage` runs the renderer
of the body's kind. -/
theorem agent_selectRenderer_wellFormed (env : Env) (kind : String) (body : JSVal)
    (render : Page → Result Node) (page : Page) (hwf : WellFormedFrame env kind body render)
    (ht : truthy body = true) :
    Agent.selectRenderer env (.str kind) body page
      = ⟨(render page).page, (render page).value.map some⟩ := by
  cases hwf <;>
    simp [Agent.selectRenderer, strictEqStr, ht, Agent.rendered]

/-- The renderer of a well-formed frame returns a node and touches neither the transcript nor
the console. -/
theorem wellFormed_render_ok (env : Env) (kind : String) (body : JSVal)
    (render : Page → Result Node) (page : Page) (hwf : WellFormedFrame env kind body render) :
    ∃ node, (render page).value = .ok node ∧
      (render page).page.chatMessages = page.chatMessages ∧
      (render page).page.console = page.console := by
  cases hwf with
  | text s => exact ⟨_, rfl, rfl, rfl⟩
  | options s entries hparse =>
    refine ⟨{ createElement "div" with
              classList := ["options-message"]
              children := entries.map (Agent.optionButton env) }, ?_, rfl, rfl⟩
    simp [Agent.getMessageOptions, parseJSON, toStr, hparse, objectEntries, bind, Except.bind,
      pure, Except.pure]
  | markdown s => exact ⟨_, rfl, rfl, rfl⟩
  | html s => exact ⟨_, rfl, rfl, rfl⟩
  | image s => exact ⟨_, rfl, rfl, rfl⟩
  | file props =>
    have hfile : ∃ node, Agent.getMessageFile env (.obj false props) = .ok node := by
      simp only [Agent.getMessageFile, getProp_plain, bind, Except.bind, pure, Except.pure]
      exact ⟨_, rfl⟩
    obtain ⟨node, hnode⟩ := hfile
    exact ⟨node, hnode, rfl, rfl⟩
  | dataframe s cols n hparse hne hnodup hkeys =>
    exact ⟨_, getMessageDataframe_eq env s cols hparse hne hnodup, rfl, rfl⟩
  | rag props docs hdocs hwf =>
    obtain ⟨node, hnode⟩ := getMessageRAG_ok env props docs hdocs hwf
    exact ⟨node, hnode, rfl, rfl⟩
  | location props => exact ⟨_, rfl, rfl, rfl⟩
  | plotly s props hparse hwf =>
    obtain ⟨node, c0, hrender, -⟩ := getMessagePlotly_ok env s props page hparse hwf
    exact ⟨node, by rw [hrender], by rw [hrender], by rw [hrender]⟩

/-- C2 as stated fails: the empty string is a well-formed text body, yet on
`{action: "agent_reply_str", message: ""}` the richer `displayMessage` takes the unknown-format
branch (it logs the warning) and appends nothing to the transcript. -/
theorem displayMessage_empty_text_not_rendered :
    WellFormedFrame sampleEnv "agent_reply_str" (.str "")
        (fun page => ⟨page, .ok (Agent.getMessageStr sampleEnv (.str ""))⟩) ∧
    (Agent.displayMessage sampleEnv (mkPayload "agent_reply_str" (.str ""))
        "agent-message" {}).page.console = [⟨.warn, "Received unknown message format:"⟩] ∧
    (Agent.displayMessage sampleEnv (mkPayload "agent_reply_str" (.str ""))
        "agent-message" {}).page.chatMessages.length = 0 ∧
    (Agent.displayMessage sampleEnv (mkPayload "agent_reply_str" (.str ""))
        "agent-message" {}).value = .error .typeError :=
  ⟨.text "", rfl, rfl, rfl⟩

/-- C2, amended. For every supported action kind of the richer variant and every well-formed
body of that kind's shape that is not the empty string (not falsy), `displayMessage` runs that
kind's renderer, which returns a node, and appends exactly that node, tagged with the class
name, to the transcript; it does not log the unknown-format warning and returns normally. On an
empty-string body of any kind nothing is appended. -/
theorem displayMessage_supported_kind (env : Env) (className : String) (page : Page) :
    (∀ (kind : String) (body : JSVal) (render : Page → Result Node),
      WellFormedFrame env kind body render → truthy body = true →
      ∃ node, (render page).value = .ok node ∧
        (Agent.displayMessage env (mkPayload kind body) className page).page.chatMessages
          = page.chatMessages ++ [node.addClass className] ∧
        (Agent.displayMessage env (mkPayload kind body) className page).page.console
          = page.console ∧
        (Agent.displayMessage env (mkPayload kind body) className page).value = .ok ()) ∧
    (∀ kind : String,
      (Agent.displayMessage env (mkPayload kind (.str "")) className page).page.chatMessages
        = page.chatMessages) := by
  constructor
  · intro kind body render hwf ht
    obtain ⟨node, hnode, hchat, hcons⟩ := wellFormed_render_ok env kind body render page hwf
    have hsel := agent_selectRenderer_wellFormed env kind body render page hwf ht
    rw [hnode] at hsel
    have hdisp := agent_displayMessage_of_select env kind body className page _ node hsel
    exact ⟨node, hnode, by rw [hdisp, ← hchat], by rw [hdisp, ← hcons], by rw [hdisp]⟩
  · intro kind
    have ha : getProp (mkPayload kind (.str "")) "action" = .ok (.str kind) := by
      simp [mkPayload, getProp, List.lookup]
    have hm : getProp (mkPayload kind (.str "")) "message" = .ok (.str "") := by
      simp [mkPayload, getProp, List.lookup]
    simp [Agent.displayMessage, ha, hm, Agent.selectRenderer, truthy, Agent.appendMessage,
      Page.logLine]

/-- C2, amended, at the text body `hello` on an empty page of the sample environment. -/
theorem displayMessage_supported_kind_witness :
    ∃ node,
      (Except.ok (Agent.getMessageStr sampleEnv (.str "hello")) : Except JSError Node)
        = .ok node ∧
      (Agent.displayMessage sampleEnv (mkPayload "agent_reply_str" (.str "hello"))
          "agent-message" {}).page.chatMessages = [] ++ [node.addClass "agent-message"] ∧
      (Agent.displayMessage sampleEnv (mkPayload "agent_reply_str" (.str "hello"))
          "agent-message" {}).page.console = [] ∧
      (Agent.displayMessage sampleEnv (mkPayload "agent_reply_str" (.str "hello"))
          "agent-message" {}).value = .ok () :=
  (displayMessage_supported_kind sampleEnv "agent-message" {}).1 "agent_reply_str" (.str "hello")
    _ (.text "hello") (by decide)

/-! ### The options renderer -/

theorem inputValue_of_no_line_break (s : String)
    (h : ∀ c ∈ s.toList, c ≠ '\n' ∧ c ≠ '\r') : inputValue s = s := by
  have hfilter : s.toList.filter (fun c => c != '\n' && c != '\r') = s.toList := by
    apply List.filter_eq_self.mpr
    intro c hc
    have := h c hc
    simp [this.1, this.2]
  unfold inputValue
  rw [hfilter]
  rfl

/-- C6 as stated fails, with the socket open: for the options body `{"1":""}` the renderer
creates one button, with the empty label, and a click on it sends no frame and appends no entry;
and a click on the button of the label `a`, line feed, `b` sends a frame whose body is `ab`, not
the label, because the text input drops the line break. -/
theorem optionClick_empty_label_sends_nothing :
    (Agent.getMessageOptions sampleEnv (.str "\x7b\"1\":\"\"\x7d")).toOption.map
        (fun node => node.children.map (fun b => (b.tag, b.textContent, b.listener)))
      = some [("a", "", some .optionClick)] ∧
    (Agent.optionClick sampleEnv (Agent.optionButton sampleEnv ("1", .str ""))
        { wsReadyState := .OPEN }).page.wsSent = [] ∧
    (Agent.optionClick sampleEnv (Agent.optionButton sampleEnv ("1", .str ""))
        { wsReadyState := .OPEN }).page.chatMessages.length = 0 ∧
    (Agent.optionButton sampleEnv ("1", .str "a\nb")).textContent = "a\nb" ∧
    (Agent.optionClick sampleEnv (Agent.optionButton sampleEnv ("1", .str "a\nb"))
        { wsReadyState := .OPEN }).page.wsSent
      = ["\x7b\"action\":\"user_message\",\"message\":\"ab\"\x7d"] :=
  ⟨rfl, rfl, rfl, rfl, rfl⟩

/-- C6, amended. On an options body that parses to an object mapping keys to labels,
`getMessageOptions` returns a container with exactly one button per entry, in entry order, each
showing its entry's label and carrying the click listener. A click on the button of an entry
assigns the label to the text input, which keeps it without its line breaks, and calls
`sendMessage`, so it does exactly what submitting that text does: when that text is non-empty
and the socket is open, one `user_message` frame with that text as body is sent, one
`user-message` entry with that text is appended and the input is cleared; when that text is
empty, nothing is sent or appended. For a label without line breaks that text is the label. -/
theorem getMessageOptions_buttons (env : Env) (s : String) (entries : List (String × String))
    (page : Page)
    (hparse : env.jsonParse s = some (.obj false (entries.map (fun e => (e.1, .str e.2))))) :
    ∃ node, Agent.getMessageOptions env (.str s) = .ok node ∧
      node.classList = ["options-message"] ∧
      node.children = entries.map (fun e => Agent.optionButton env (e.1, .str e.2)) ∧
      ∀ e ∈ entries,
        (Agent.optionButton env (e.1, .str e.2)).textContent = e.2 ∧
        (Agent.optionButton env (e.1, .str e.2)).listener = some .optionClick ∧
        Agent.optionClick env (Agent.optionButton env (e.1, .str e.2)) page
          = Agent.sendMessage env { page with messageInput := inputValue e.2 } ∧
        ((∀ c ∈ e.2.toList, c ≠ '\n' ∧ c ≠ '\r') → inputValue e.2 = e.2) ∧
        (inputValue e.2 ≠ "" → page.wsReadyState = .OPEN →
          Agent.optionClick env (Agent.optionButton env (e.1, .str e.2)) page
            = ⟨{ page with
                 chatMessages := page.chatMessages ++
                   [(Agent.getMessageStr env (.str (inputValue e.2))).addClass "user-message"]
                 wsSent := page.wsSent ++
                   [env.jsonStringify (Agent.userPayload (inputValue e.2))]
                 messageInput := "" }, .ok ()⟩) ∧
        (inputValue e.2 = "" →
          Agent.optionClick env (Agent.optionButton env (e.1, .str e.2)) page
            = ⟨{ page with messageInput := "" }, .ok ()⟩) := by
  refine ⟨{ createElement "div" with
            classList := ["options-message"]
            children := entries.map (fun e => Agent.optionButton env (e.1, .str e.2)) },
    ?_, rfl, rfl, ?_⟩
  · simp [Agent.getMessageOptions, parseJSON, toStr, hparse, objectEntries, bind, Except.bind,
      pure, Except.pure, Function.comp_def]
  · intro e _
    have htext : (Agent.optionButton env (e.1, .str e.2)).textContent = e.2 := by
      simp [Agent.optionButton, domText, toStr]
    have hclick : Agent.optionClick env (Agent.optionButton env (e.1, .str e.2)) page
        = Agent.sendMessage env { page with messageInput := inputValue e.2 } := by
      simp [Agent.optionClick, htext]
    refine ⟨htext, rfl, hclick, inputValue_of_no_line_break e.2, ?_, ?_⟩
    · intro hne hs
      rw [hclick, agent_sendMessage_eq env { page with messageInput := inputValue e.2 }
        (inputValue e.2) rfl hne]
      simp only [hs]
    · intro he
      rw [hclick]
      simp [Agent.sendMessage, he]

/-- C6, amended, at the specification's example `{"1":"Yes","2":"No"}` with the socket open: two
buttons `Yes` and `No`, and a click on `Yes` sends the frame
`{"action":"user_message","message":"Yes"}`. -/
theorem getMessageOptions_buttons_witness :
    (∃ node, Agent.getMessageOptions sampleEnv (.str "\x7b\"1\":\"Yes\",\"2\":\"No\"\x7d")
        = .ok node ∧
      node.children.map (fun b => b.textContent) = ["Yes", "No"]) ∧
    (Agent.optionClick sampleEnv (Agent.optionButton sampleEnv ("1", .str "Yes"))
        { wsReadyState := .OPEN }).page.wsSent
      = ["\x7b\"action\":\"user_message\",\"message\":\"Yes\"\x7d"] ∧
    (Agent.optionClick sampleEnv (Agent.optionButton sampleEnv ("1", .str "Yes"))
        { wsReadyState := .OPEN }).page.chatMessages.map
        (fun n => (n.tag, n.textContent, n.classList))
      = [("p", "Yes", ["str-message", "user-message"])] :=
  have h := getMessageOptions_buttons sampleEnv "\x7b\"1\":\"Yes\",\"2\":\"No\"\x7d"
    [("1", "Yes"), ("2", "No")] { wsReadyState := .OPEN } rfl
  ⟨h.elim (fun node hn => ⟨node, hn.1, by rw [hn.2.2.1]; rfl⟩), rfl, rfl⟩

/-! ### Malformed dataframe bodies -/

/-- C10 as stated fails: the inbound frame
`{"action":"agent_reply_dataframe","message":"{\"a\":{\"0\":\"x\"},\"b\":{}}"}`, whose column `b`
lacks the index key `"0"` of the first column, is not dropped: a table with the header `(a, b)`
and the data row `(x, "")` is appended to the transcript and nothing is logged. -/
theorem onmessage_ragged_dataframe_appended :
    sampleEnv.jsonParse raggedFrame
      = some (mkPayload "agent_reply_dataframe" (.str raggedBody)) ∧
    sampleEnv.jsonParse raggedBody = some raggedDataframe ∧
    (Agent.onmessage sampleEnv raggedFrame {}).page.chatMessages.map
        (fun table => (table.tag, table.classList,
          table.children.map (fun row => row.children.map (fun cell =>
            (cell.tag, cell.textContent)))))
      = [("table", ["dataframe-message", "agent-message"],
          [[("th", "a"), ("th", "b")], [("td", "x"), ("td", "")]])] ∧
    (Agent.onmessage sampleEnv raggedFrame {}).page.console = [] :=
  ⟨rfl, rfl, rfl, rfl⟩

/-- C10, amended. An inbound `agent_reply_dataframe` frame whose body is not valid JSON or is an
empty object is dropped: the transcript is unchanged, the handler returns normally and its last
console line is the error log. The body is not validated before rendering: whenever it parses to
an object with at least one column whose columns are objects, whatever their index keys, one
table is appended to the transcript and nothing is logged. -/
theorem onmessage_dataframe_body (env : Env) (data s : String) (page : Page)
    (hframe : env.jsonParse data = some (mkPayload "agent_reply_dataframe" (.str s))) :
    ((env.jsonParse s = none ∨ env.jsonParse s = some (.obj false [])) →
      (Agent.onmessage env data page).page.chatMessages = page.chatMessages ∧
      (Agent.onmessage env data page).value = .ok () ∧
      (Agent.onmessage env data page).page.console.getLast?
        = some ⟨.error, "Error parsing message:"⟩) ∧
    (∀ cols : List (String × List (String × JSVal)),
      s ≠ "" → env.jsonParse s = some (dataframeValue cols) → cols ≠ [] →
      (cols.map Prod.fst).Nodup →
      ∃ table, Agent.getMessageDataframe env (.str s) = .ok table ∧
        (Agent.onmessage env data page).page.chatMessages
          = page.chatMessages ++ [table.addClass "agent-message"] ∧
        (Agent.onmessage env data page).page.console = page.console) := by
  have ha : getProp (mkPayload "agent_reply_dataframe" (.str s)) "action"
      = .ok (.str "agent_reply_dataframe") := by
    simp [mkPayload, getProp, List.lookup]
  have hm : getProp (mkPayload "agent_reply_dataframe" (.str s)) "message" = .ok (.str s) := by
    simp [mkPayload, getProp, List.lookup]
  constructor
  · intro hbody
    have hthrow : ∃ e, Agent.getMessageDataframe env (.str s) = .error e := by
      rcases hbody with h | h
      · exact ⟨.syntaxError, by
          simp [Agent.getMessageDataframe, parseJSON, toStr, h, bind, Except.bind]⟩
      · exact ⟨.typeError, by
          simp [Agent.getMessageDataframe, parseJSON, toStr, h, objectKeys, getProp, List.lookup,
            bind, Except.bind]⟩
    obtain ⟨e, he⟩ := hthrow
    by_cases hs : s = ""
    · subst hs
      simp [Agent.onmessage, hframe, Agent.displayMessage, ha, hm, Agent.selectRenderer, truthy,
        strictEqStr, Agent.appendMessage, Page.logLine]
    · simp [Agent.onmessage, hframe, Agent.displayMessage, ha, hm, Agent.selectRenderer, truthy,
        strictEqStr, Agent.appendMessage, Page.logLine, hs, Agent.rendered, he, Except.map]
  · intro cols hs hparse hne hnodup
    have htable := getMessageDataframe_eq env s cols hparse hne hnodup
    refine ⟨_, htable, ?_, ?_⟩
    · simp [Agent.onmessage, hframe, Agent.displayMessage, ha, hm, Agent.selectRenderer, truthy,
        strictEqStr, Agent.appendMessage, hs, Agent.rendered, htable, Except.map]
    · simp [Agent.onmessage, hframe, Agent.displayMessage, ha, hm, Agent.selectRenderer, truthy,
        strictEqStr, Agent.appendMessage, hs, Agent.rendered, htable, Except.map]

/-- C10, amended, in the sample environment: with the body `{}` the frame is dropped, and the
ragged body is rendered. -/
theorem onmessage_dataframe_body_witness :
    ((Agent.onmessage sampleEnv emptyFrame {}).page.chatMessages = [] ∧
      (Agent.onmessage sampleEnv emptyFrame {}).value = .ok () ∧
      (Agent.onmessage sampleEnv emptyFrame {}).page.console.getLast?
        = some ⟨.error, "Error parsing message:"⟩) ∧
    (∃ table, Agent.getMessageDataframe sampleEnv (.str raggedBody) = .ok table ∧
      (Agent.onmessage sampleEnv raggedFrame {}).page.chatMessages
        = [] ++ [table.addClass "agent-message"] ∧
      (Agent.onmessage sampleEnv raggedFrame {}).page.console = []) :=
  ⟨(onmessage_dataframe_body sampleEnv emptyFrame "\x7b\x7d" {} rfl).1 (Or.inr rfl),
   (onmessage_dataframe_body sampleEnv raggedFrame raggedBody {} rfl).2
    [("a", [("0", .str "x")]), ("b", [])] (by decide) rfl (by simp) (by decide)⟩

/-! ### The transcript is append-only -/

theorem wsSend_chatMessages (frame : String) (page : Page) :
    (wsSend frame page).page.chatMessages = page.chatMessages := by
  unfold wsSend
  cases page.wsReadyState <;> rfl

theorem mem_addClass (n : Node) (c : String) : c ∈ (n.addClass c).classList := by
  unfold Node.addClass
  by_cases h : c ∈ n.classList <;> simp [h]

theorem ite_chatMessages {α : Type} (c : Prop) [Decidable c] (a b : Result α) (page : Page)
    (ha : a.page.chatMessages = page.chatMessages)
    (hb : b.page.chatMessages = page.chatMessages) :
    (if c then a else b).page.chatMessages = page.chatMessages := by
  split <;> assumption

/-- The chain of the richer `displayMessage` leaves the transcript alone. -/
theorem agent_selectRenderer_chatMessages (env : Env) (action message : JSVal) (page : Page) :
    (Agent.selectRenderer env action message page).page.chatMessages = page.chatMessages := by
  have hplot : (Agent.getMessagePlotly env message page).page.chatMessages
      = page.chatMessages := by
    simp only [Agent.getMessagePlotly]
    split <;> rfl
  unfold Agent.selectRenderer
  repeat' apply ite_chatMessages
  iterate 9 exact rfl
  · exact hplot
  · exact rfl

/-- The chain of the reduced `displayMessage` leaves the transcript alone. -/
theorem bot_selectRenderer_chatMessages (env : Env) (action message : JSVal) (page : Page) :
    (Bot.selectRenderer env action message page).page.chatMessages = page.chatMessages := by
  unfold Bot.selectRenderer
  repeat' apply ite_chatMessages
  all_goals exact rfl

/-- The end of `displayMessage` appends no node or the one tagged node. -/
theorem appendMessage_entry (className : String) (r : Result (Option Node)) :
    ∃ added, EntryOf className added ∧
      (Agent.appendMessage className r).page.chatMessages = r.page.chatMessages ++ added := by
  unfold Agent.appendMessage
  split
  · exact ⟨[], ⟨by simp, by simp⟩, by simp⟩
  · exact ⟨[], ⟨by simp, by simp⟩, by simp⟩
  · next node _ =>
    exact ⟨[node.addClass className],
      ⟨by simp, by
        intro n hn
        rw [List.mem_singleton.mp hn]
        exact mem_addClass node className⟩, rfl⟩

/-- The richer `displayMessage` appends no node or one node tagged with the class name. -/
theorem agent_displayMessage_entry (env : Env) (payload : JSVal) (className : String)
    (page : Page) :
    ∃ added, EntryOf className added ∧
      (Agent.displayMessage env payload className page).page.chatMessages
        = page.chatMessages ++ added := by
  unfold Agent.displayMessage
  cases getProp payload "action" with
  | error e => exact ⟨[], ⟨by simp, by simp⟩, by simp⟩
  | ok action =>
    cases getProp payload "message" with
    | error e => exact ⟨[], ⟨by simp, by simp⟩, by simp⟩
    | ok message =>
      obtain ⟨added, hentry, happend⟩ :=
        appendMessage_entry className (Agent.selectRenderer env action message page)
      exact ⟨added, hentry, by
        simp only [happend, agent_selectRenderer_chatMessages]⟩

/-- The reduced `displayMessage` appends no node or one node tagged with the class name. -/
theorem bot_displayMessage_entry (env : Env) (payload : JSVal) (className : String)
    (page : Page) :
    ∃ added, EntryOf className added ∧
      (Bot.displayMessage env payload className page).page.chatMessages
        = page.chatMessages ++ added := by
  unfold Bot.displayMessage
  cases getProp payload "action" with
  | error e => exact ⟨[], ⟨by simp, by simp⟩, by simp⟩
  | ok action =>
    cases getProp payload "message" with
    | error e => exact ⟨[], ⟨by simp, by simp⟩, by simp⟩
    | ok message =>
      obtain ⟨added, hentry, happend⟩ :=
        appendMessage_entry className (Bot.selectRenderer env action message page)
      exact ⟨added, hentry, by
        simp only [happend, bot_selectRenderer_chatMessages]⟩

/-- One event of the richer script adds no node or one node tagged with the event's origin. -/
theorem agent_step_entry (env : Env) (page : Page) (e : Event) :
    ∃ added, EntryOf (Agent.originTag e) added ∧
      (Agent.step env page e).chatMessages = page.chatMessages ++ added := by
  cases e with
  | inbound data =>
    simp only [Agent.step, Agent.originTag, Agent.onmessage]
    cases env.jsonParse data with
    | none => exact ⟨[], ⟨by simp, by simp⟩, by simp [Page.logLine]⟩
    | some payload =>
      obtain ⟨added, hentry, happend⟩ :=
        agent_displayMessage_entry env payload "agent-message" page
      refine ⟨added, hentry, ?_⟩
      simp only
      split
      · exact happend
      · simpa [Page.logLine] using happend
  | userSend text =>
    simp only [Agent.step, Agent.originTag, Agent.sendMessage]
    by_cases ht : text = ""
    · exact ⟨[], ⟨by simp, by simp⟩, by simp [ht]⟩
    · obtain ⟨added, hentry, happend⟩ :=
        agent_displayMessage_entry env (Agent.userPayload text) "user-message"
          { page with messageInput := text }
      refine ⟨added, hentry, ?_⟩
      simp only [ht, ne_eq, not_false_eq_true, if_true]
      split
      · exact happend
      · split
        · rw [wsSend_chatMessages]
          exact happend
        · simp only [wsSend_chatMessages]
          exact happend

/-- One event of the reduced script adds no node or one node tagged with the event's origin. -/
theorem bot_step_entry (env : Env) (page : Page) (e : Event) :
    ∃ added, EntryOf (Bot.originTag e) added ∧
      (Bot.step env page e).chatMessages = page.chatMessages ++ added := by
  cases e with
  | inbound data =>
    simp only [Bot.step, Bot.originTag, Bot.onmessage]
    cases env.jsonParse data with
    | none => exact ⟨[], ⟨by simp, by simp⟩, by simp [Page.logLine]⟩
    | some payload =>
      obtain ⟨added, hentry, happend⟩ :=
        bot_displayMessage_entry env payload "bot-message" page
      refine ⟨added, hentry, ?_⟩
      simp only
      split
      · exact happend
      · simpa [Page.logLine] using happend
  | userSend text =>
    simp only [Bot.step, Bot.originTag, Bot.sendMessage]
    by_cases ht : text = ""
    · exact ⟨[], ⟨by simp, by simp⟩, by simp [ht]⟩
    · obtain ⟨added, hentry, happend⟩ :=
        bot_displayMessage_entry env (Agent.userPayload text) "user-message"
          { page with messageInput := text }
      refine ⟨added, hentry, ?_⟩
      simp only [ht, ne_eq, not_false_eq_true, if_true]
      split
      · exact happend
      · split
        · rw [wsSend_chatMessages]
          exact happend
        · simp only [wsSend_chatMessages]
          exact happend

/-- A sequence of events of the richer script adds, event by event and in that order, no node or
one tagged node each. -/
theorem agent_run_entries (env : Env) : ∀ (evs : List Event) (page : Page),
    ∃ adds : List (List Node),
      List.Forall₂ (fun e added => EntryOf (Agent.originTag e) added) evs adds ∧
      (Agent.run env page evs).chatMessages = page.chatMessages ++ adds.flatten
  | [], page => ⟨[], List.Forall₂.nil, by simp [Agent.run]⟩
  | e :: rest, page => by
    obtain ⟨added, hentry, hstep⟩ := agent_step_entry env page e
    obtain ⟨adds, hall, hrun⟩ := agent_run_entries env rest (Agent.step env page e)
    exact ⟨added :: adds, List.Forall₂.cons hentry hall, by
      simp [Agent.run, hrun, hstep, List.append_assoc]⟩

/-- A sequence of events of the reduced script adds, event by event and in that order, no node
or one tagged node each. -/
theorem bot_run_entries (env : Env) : ∀ (evs : List Event) (page : Page),
    ∃ adds : List (List Node),
      List.Forall₂ (fun e added => EntryOf (Bot.originTag e) added) evs adds ∧
      (Bot.run env page evs).chatMessages = page.chatMessages ++ adds.flatten
  | [], page => ⟨[], List.Forall₂.nil, by simp [Bot.run]⟩
  | e :: rest, page => by
    obtain ⟨added, hentry, hstep⟩ := bot_step_entry env page e
    obtain ⟨adds, hall, hrun⟩ := bot_run_entries env rest (Bot.step env page e)
    exact ⟨added :: adds, List.Forall₂.cons hentry hall, by
      simp [Bot.run, hrun, hstep, List.append_assoc]⟩

/-- C11. For every page and every event (an inbound frame or a user send), the transcript after
the event is the transcript before it followed by no node or by one node, and that node carries
the origin class of the event (`user-message` for a send, `agent-message` or `bot-message` for an
inbound frame); hence after every sequence of events the transcript is the initial transcript
followed by the nodes the events added, in the order the events were processed: nothing is
removed, reordered or replaced. This holds for the richer and for the reduced script. -/
theorem transcript_append_only (env : Env) (page : Page) :
    (∀ e : Event,
      (∃ added, EntryOf (Agent.originTag e) added ∧
        (Agent.step env page e).chatMessages = page.chatMessages ++ added) ∧
      (∃ added, EntryOf (Bot.originTag e) added ∧
        (Bot.step env page e).chatMessages = page.chatMessages ++ added)) ∧
    (∀ evs : List Event,
      (∃ adds : List (List Node),
        List.Forall₂ (fun e added => EntryOf (Agent.originTag e) added) evs adds ∧
        (Agent.run env page evs).chatMessages = page.chatMessages ++ adds.flatten) ∧
      (∃ adds : List (List Node),
        List.Forall₂ (fun e added => EntryOf (Bot.originTag e) added) evs adds ∧
        (Bot.run env page evs).chatMessages = page.chatMessages ++ adds.flatten)) :=
  ⟨fun e => ⟨agent_step_entry env page e, bot_step_entry env page e⟩,
   fun evs => ⟨agent_run_entries env evs page, bot_run_entries env evs page⟩⟩

/-! ### The reduced dispatcher against the richer one -/

/-- The reduced `displayMessage` on `bot_reply_str` is the richer one on `agent_reply_str`. -/
theorem bot_agent_str (env : Env) (body : JSVal) (className : String) (page : Page) :
    Bot.displayMessage env (mkPayload "bot_reply_str" body) className page
      = Agent.displayMessage env (mkPayload "agent_reply_str" body) className page := by
  simp [Bot.displayMessage, Agent.displayMessage, mkPayload, getProp, List.lookup,
    Bot.selectRenderer, Agent.selectRenderer, strictEqStr]
  rfl

/-- The reduced `displayMessage` on `bot_reply_markdown` is the richer one on
`agent_reply_markdown`. -/
theorem bot_agent_markdown (env : Env) (body : JSVal) (className : String) (page : Page) :
    Bot.displayMessage env (mkPayload "bot_reply_markdown" body) className page
      = Agent.displayMessage env (mkPayload "agent_reply_markdown" body) className page := by
  simp [Bot.displayMessage, Agent.displayMessage, mkPayload, getProp, List.lookup,
    Bot.selectRenderer, Agent.selectRenderer, strictEqStr]
  rfl

/-- The reduced `displayMessage` on `bot_reply_html` is the richer one on `agent_reply_html`. -/
theorem bot_agent_html (env : Env) (body : JSVal) (className : String) (page : Page) :
    Bot.displayMessage env (mkPayload "bot_reply_html" body) className page
      = Agent.displayMessage env (mkPayload "agent_reply_html" body) className page := by
  simp [Bot.displayMessage, Agent.displayMessage, mkPayload, getProp, List.lookup,
    Bot.selectRenderer, Agent.selectRenderer, strictEqStr]
  rfl

/-- Both scripts dispatch `user_message` in the same way. -/
theorem bot_agent_user (env : Env) (body : JSVal) (className : String) (page : Page) :
    Bot.displayMessage env (mkPayload "user_message" body) className page
      = Agent.displayMessage env (mkPayload "user_message" body) className page := by
  simp [Bot.displayMessage, Agent.displayMessage, mkPayload, getProp, List.lookup,
    Bot.selectRenderer, Agent.selectRenderer, strictEqStr]
  rfl

/-- The richer `displayMessage` renders a non-falsy `user_message` body with the text renderer. -/
theorem agent_user_text (env : Env) (body : JSVal) (className : String) (page : Page)
    (ht : truthy body = true) :
    Agent.displayMessage env (mkPayload "user_message" body) className page
      = ⟨{ page with chatMessages := page.chatMessages ++
            [(Agent.getMessageStr env body).addClass className] }, .ok ()⟩ := by
  simp [Agent.displayMessage, mkPayload, getProp, List.lookup, Agent.selectRenderer,
    strictEqStr, ht, Agent.rendered, Agent.appendMessage, Except.map]

/-- C12. Up to the action-name prefix the richer dispatcher contains the reduced one and is
strictly larger: the three renderers of the reduced script return the same nodes as their
namesakes in the richer script; for every body, class name and page, the reduced
`displayMessage` on `bot_reply_str`, `bot_reply_markdown` and `bot_reply_html` gives the same
result (page, transcript and outcome) as the richer one on `agent_reply_str`,
`agent_reply_markdown` and `agent_reply_html`; both dispatch `user_message` identically, and a
non-falsy `user_message` body is appended as the node of the text renderer; and the richer
script renders `agent_reply_image`, for which the reduced script appends nothing, neither under
that name nor under `bot_reply_image`. -/
theorem richer_contains_reduced (env : Env) (className : String) (page : Page) :
    (∀ body : JSVal,
      Bot.getMessageStr env body = Agent.getMessageStr env body ∧
      Bot.getMessageMarkdown env body = Agent.getMessageMarkdown env body ∧
      Bot.getMessageHtml env body = Agent.getMessageHtml env body) ∧
    (∀ body : JSVal,
      Bot.displayMessage env (mkPayload "bot_reply_str" body) className page
        = Agent.displayMessage env (mkPayload "agent_reply_str" body) className page ∧
      Bot.displayMessage env (mkPayload "bot_reply_markdown" body) className page
        = Agent.displayMessage env (mkPayload "agent_reply_markdown" body) className page ∧
      Bot.displayMessage env (mkPayload "bot_reply_html" body) className page
        = Agent.displayMessage env (mkPayload "agent_reply_html" body) className page) ∧
    (∀ body : JSVal,
      Bot.displayMessage env (mkPayload "user_message" body) className page
        = Agent.displayMessage env (mkPayload "user_message" body) className page ∧
      (truthy body = true →
        Agent.displayMessage env (mkPayload "user_message" body) className page
          = ⟨{ page with chatMessages := page.chatMessages ++
                [(Agent.getMessageStr env body).addClass className] }, .ok ()⟩)) ∧
    ((Agent.displayMessage env (mkPayload "agent_reply_image" (.str "AAAA"))
        className page).page.chatMessages
        = page.chatMessages ++ [(Agent.getMessageImage env (.str "AAAA")).addClass className] ∧
      (Bot.displayMessage env (mkPayload "bot_reply_image" (.str "AAAA"))
        className page).page.chatMessages = page.chatMessages ∧
      (Bot.displayMessage env (mkPayload "agent_reply_image" (.str "AAAA"))
        className page).page.chatMessages = page.chatMessages) := by
  refine ⟨fun body => ⟨rfl, rfl, rfl⟩,
    fun body => ⟨bot_agent_str env body className page,
      bot_agent_markdown env body className page, bot_agent_html env body className page⟩,
    fun body => ⟨bot_agent_user env body className page,
      agent_user_text env body className page⟩, ?_, ?_, ?_⟩
  · simp [Agent.displayMessage, mkPayload, getProp, List.lookup, Agent.selectRenderer,
      strictEqStr, truthy, Agent.rendered, Agent.appendMessage, Except.map]
  · simp [Bot.displayMessage, mkPayload, getProp, List.lookup, Bot.selectRenderer,
      strictEqStr, Agent.appendMessage, Page.logLine]
  · simp [Bot.displayMessage, mkPayload, getProp, List.lookup, Bot.selectRenderer,
      strictEqStr, Agent.appendMessage, Page.logLine]

/-- C12 in the sample environment on an empty page: the text `hello` under `user_message` with
the class `user-message` gives the same one-entry transcript in both scripts. -/
theorem richer_contains_reduced_witness :
    truthy (.str "hello") = true ∧
    Agent.displayMessage sampleEnv (mkPayload "user_message" (.str "hello")) "user-message" {}
      = ⟨{ ({} : Page) with chatMessages := ({} : Page).chatMessages ++
            [(Agent.getMessageStr sampleEnv (.str "hello")).addClass "user-message"] },
          .ok ()⟩ ∧
    ((Bot.displayMessage sampleEnv (mkPayload "user_message" (.str "hello"))
        "user-message" {}).page.chatMessages.map (fun n => (n.tag, n.textContent, n.classList))
      = [("p", "hello", ["str-message", "user-message"])]) :=
  ⟨by decide,
   ((richer_contains_reduced sampleEnv "user-message" {}).2.2.1 (.str "hello")).2 (by decide),
   rfl⟩

end ChatWidget
